import Mathlib

/-!
Shallow embedding of the message-routing core of `src/main.py` (a Telegram
relay bot served over a FastAPI webhook).

Modelling conventions, faithful to the source:

* All global mutable structures of the source (`message_targets`,
  `processed_updates`, `user_settings`, `banned_users`, `ban_log`,
  `user_message_log`, `last_admin_message`, `handled_media_groups`) become
  fields of an explicit `BotState`; dicts are association lists, sets are
  duplicate-free lists.
* Every aiogram handler becomes a pure function `... → BotState → BotState ×
  List Action`; outbound Telegram calls (`send_message`, `edit_message_text`,
  `callback.answer`, ...) become constructors of the `Action` type.  Outbound
  calls are modelled as succeeding; the source catches and ignores their
  failures (best-effort semantics), which is external nondeterminism outside
  the routing logic.
* `time.time()` is nonnegative wall-clock time; it is modelled as `Nat`
  seconds, passed to each handler as an explicit `now` argument.  All time
  comparisons in the source (`now - info["time"] <= 60`,
  `e["timestamp"] >= cutoff` with `cutoff = now - window` or `0`) agree with
  the Python real-number comparisons on nonnegative times, including the
  truncated-subtraction corner cases.
* Message ids returned by the transport are modelled by a counter
  `nextMsgId`; only sends whose returned id the source actually stores
  (the relayed notification, the pinned status message) consume the counter.
* Python truthiness is modelled where it matters: `if not user_id` in
  `handle_admin_reply` is true for the id `0`, and `if status_msg_id` in
  `ensure_status_message` is false for the stored id `0`.
* `int(...)` parsing of callback payloads is modelled by `pyInt`
  (optional surrounding whitespace, optional sign, decimal digits).
* The identity lookup `bot.get_chat` used on ban confirmation is best-effort
  and may fail; it is modelled as an oracle argument
  `env : Int → Option (String × Option String)`.
-/

namespace TgRelay

/-- Configuration constant `ADMIN_CHAT_ID`: the source reads it from the
environment at startup; it is modelled as a fixed integer (no claim depends
on its value). -/
def ADMIN_CHAT_ID : Int := -1001234567890

inductive Lang
| ru
| en
deriving DecidableEq, Repr

/-- Per-user settings record, mirroring the dict
`{"lang": ..., "anon": ..., "status_msg_id": ...}`. -/
structure Settings where
  lang : Lang
  anon : Bool
  status_msg_id : Option Nat
deriving DecidableEq, Repr

/-- Default settings created on first contact (`get_user_settings`). -/
def defaultSettings : Settings := ⟨Lang.ru, false, none⟩

structure TgUser where
  id : Int
  fullName : String
  username : Option String
deriving DecidableEq, Repr

/-- Content classification used by `handle_user_message`: the source tests
`message.text`, `message.photo`, `message.video`,
`message.content_type == "pinned_message"` in that spirit; anything else is
`unsupported`.  `photo` carries the file id of `message.photo[-1]`. -/
inductive MsgContent
| text (t : String)
| photo (fileId : String) (caption : Option String)
| video (fileId : String) (caption : Option String)
| pinned
| unsupported
deriving DecidableEq, Repr

structure Msg where
  chatId : Int
  chatPrivate : Bool
  sender : TgUser
  content : MsgContent
  mediaGroupId : Option String
  replyTo : Option Nat
deriving DecidableEq, Repr

structure Cb where
  chatId : Int
  chatPrivate : Bool
  sender : TgUser
  data : String
  originMsgId : Nat
deriving DecidableEq, Repr

inductive Event
| message (m : Msg)
| callbackQ (c : Cb)
deriving DecidableEq, Repr

/-- Inline keyboards, represented symbolically by which factory built them
(`make_ban_keyboard`, the two-step confirm keyboards, the start keyboard,
the stats menus); exact button labels are presentation. -/
inductive Kb
| banK (uid : Int)
| unbanK (uid : Int)
| banConfirmK (uid : Int)
| unbanConfirmK (uid : Int)
| startK (lang : Lang) (anon : Bool)
| statsMenuK
| statsBackK
deriving DecidableEq, Repr

/-- Outbound transport calls issued by the handlers. -/
inductive Action
| answerUser (uid : Int) (text : String) (kb : Option Kb)
| sendMessageA (chat : Int) (text : String) (kb : Option Kb)
| sendPhotoA (chat : Int) (fileId : String) (caption : Option String) (kb : Option Kb)
| sendVideoA (chat : Int) (fileId : String) (caption : Option String) (kb : Option Kb)
| editTextA (chat : Int) (mid : Nat) (text : String) (kb : Option Kb)
| editCaptionA (chat : Int) (mid : Nat) (caption : String) (kb : Option Kb)
| editMarkupA (chat : Int) (mid : Nat) (kb : Kb)
| pinA (chat : Int) (mid : Nat)
| cbAnswerA (text : String) (alert : Bool)
| replyAdminA (text : String) (kb : Option Kb)
deriving DecidableEq, Repr

inductive MKind
| textK
| photoK
| videoK
deriving DecidableEq, Repr

/-- One element of `user_message_log`. -/
structure StatsEvent where
  user_id : Int
  timestamp : Nat
  kind : MKind
  is_anon : Bool
deriving DecidableEq, Repr

/-- One element of `last_admin_message`
(`{"chat_id", "message_id", "text", "time", "has_media", "is_anon"}`). -/
structure LastRelay where
  chat_id : Int
  message_id : Nat
  text : String
  time : Nat
  has_media : Bool
  is_anon : Bool
deriving DecidableEq, Repr

/-- One element of `ban_log`. -/
structure BanEntry where
  timestamp : Nat
  name : Option String
  username : Option String
deriving DecidableEq, Repr

structure BotState where
  message_targets : List ((Int × Nat) × Int)
  processed_updates : List Nat
  user_settings : List (Int × Settings)
  banned_users : List Int
  ban_log : List (Int × BanEntry)
  user_message_log : List StatsEvent
  last_admin_message : List (Int × LastRelay)
  handled_media_groups : List String
  nextMsgId : Nat
deriving DecidableEq, Repr

/-- All stores start empty (process start). -/
def initialState : BotState := ⟨[], [], [], [], [], [], [], [], 1⟩

/- Association-list and set primitives modelling Python dicts and sets. -/

def alookup {κ α : Type} [DecidableEq κ] (l : List (κ × α)) (k : κ) : Option α :=
  (l.find? (fun p => decide (p.1 = k))).map Prod.snd

def aset {κ α : Type} [DecidableEq κ] (l : List (κ × α)) (k : κ) (v : α) :
    List (κ × α) :=
  (k, v) :: l.filter (fun p => !(decide (p.1 = k)))

def aerase {κ α : Type} [DecidableEq κ] (l : List (κ × α)) (k : κ) : List (κ × α) :=
  l.filter (fun p => !(decide (p.1 = k)))

def akeys {κ α : Type} (l : List (κ × α)) : List κ := l.map Prod.fst

def sinsert {α : Type} [DecidableEq α] (x : α) (l : List α) : List α :=
  if x ∈ l then l else x :: l

def sremove {α : Type} [DecidableEq α] (x : α) (l : List α) : List α :=
  l.filter (fun y => !(decide (y = x)))

/-- Boolean string-prefix test, modelling Python `str.startswith` (and the
anchored regexp filter `^/anon`). -/
def strStarts (s p : String) : Bool := p.data.isPrefixOf s.data

/- Localized text builders, copied from the source. -/

def format_user_info (u : TgUser) : String :=
  let base := "👤 <b>" ++ u.fullName ++ "</b>"
  let base :=
    match u.username with
    | some un => base ++ " (@" ++ un ++ ")"
    | none => base
  base ++ "\n🆔 <code>" ++ toString u.id ++ "</code>"

def build_status_text (lang : Lang) (anon : Bool) : String :=
  match lang with
  | Lang.en =>
    (if anon then "Anon: ON" else "Anon: OFF") ++ " | Lang: English"
  | Lang.ru =>
    (if anon then "Анон: Вкл" else "Анон: Выкл") ++ " | Язык: Русский"

def build_start_text (lang : Lang) : String :=
  match lang with
  | Lang.en =>
    "Hi! 👋\n\nThis is a bot for sending messages to Abbas Gallyamov.\n\n" ++
    "Here you can:\n• ask a question\n• share your opinion\n" ++
    "• send an idea or suggestion\n\n" ++
    "You can send a message as text, photo or video. " ++
    "Admins will read it and, if necessary, reply to you.\n\n" ++
    "You can enable anonymous mode so that admins do not see your data. " ++
    "Use the button below or the /anon command.\n" ++
    "After changing anonymity or language, just send your message."
  | Lang.ru =>
    "Привет! 👋\n\nЭто бот для отправки сообщений Аббасу Галлямову.\n\n" ++
    "Здесь вы можете:\n• задать вопрос\n• поделиться мнением\n" ++
    "• отправить идею или предложение\n\n" ++
    "Вы можете отправлять текст, фотографии и видео. " ++
    "Админы всё прочитают и при необходимости ответят вам.\n\n" ++
    "Вы можете включить анонимный режим, чтобы админы не видели ваши данные. " ++
    "Используйте кнопку ниже или команду /anon.\n" ++
    "После изменения анонимности или языка просто отправьте сообщение."

def build_thanks_text (lang : Lang) : String :=
  match lang with
  | Lang.en => "Thank you, your message has been sent ✅"
  | Lang.ru => "Спасибо, ваше сообщение отправлено ✅"

def build_blocked_text (lang : Lang) : String :=
  match lang with
  | Lang.en => "You have been blocked and can no longer use this bot."
  | Lang.ru => "Вы были заблокированы и больше не можете пользоваться этим ботом."

def build_unsupported_text (lang : Lang) : String :=
  match lang with
  | Lang.en => "Right now I only support text messages, photos and videos."
  | Lang.ru => "Пока я принимаю только текстовые сообщения, фотографии и видео."

def build_anon_on_text (lang : Lang) : String :=
  match lang with
  | Lang.en => "Anonymous mode is now ON. Your next messages will be sent anonymously."
  | Lang.ru => "Анонимный режим включен. Ваши следующие сообщения будут приходить как анонимные."

def build_anon_off_text (lang : Lang) : String :=
  match lang with
  | Lang.en => "Anonymous mode is now OFF. Your future messages will be sent with your data."
  | Lang.ru => "Анонимный режим отключен. Ваши будущие сообщения будут приходить с вашими данными."

def build_answer_header (lang : Lang) : String :=
  match lang with
  | Lang.en => "Abbas Gallyamov replied to your message:"
  | Lang.ru => "Аббас Галлямов ответил на ваше сообщение:"

def build_stats_period_label (period : String) : String :=
  if period = "day" then "за последние 24 часа"
  else if period = "week" then "за последнюю неделю"
  else if period = "month" then "за последний месяц"
  else "за все время"

def anon_usage_text (lang : Lang) : String :=
  match lang with
  | Lang.en =>
    "Usage:\n/anon - toggle anonymous mode\n/anon on - enable anonymous mode\n" ++
    "/anon off - disable anonymous mode"
  | Lang.ru =>
    "Использование команды:\n/anon - переключить режим\n" ++
    "/anon on - включить анонимный режим\n/anon off - выключить анонимный режим"

/- Payload parsing: `data.split(":", 1)` followed by `int(user_id_str)`,
with the surrounding `try/except` modelled by `Option`. -/

/-- Value of a nonempty all-digit character list, `none` otherwise. -/
def digitsVal (cs : List Char) : Option Nat :=
  match cs with
  | [] => none
  | _ =>
    cs.foldl
      (fun acc c =>
        match acc with
        | none => none
        | some n => if c.isDigit then some (n * 10 + (c.toNat - 48)) else none)
      (some 0)

/-- Python `str.strip()` (ASCII whitespace). -/
def pyTrim (s : String) : String :=
  String.mk
    (((s.data.dropWhile Char.isWhitespace).reverse.dropWhile Char.isWhitespace).reverse)

/-- Python `int(s)`: optional surrounding whitespace, optional sign, decimal
digits.  (Exotic Python numerals — digit-group underscores, non-ASCII
digits — are not modelled; no callback payload produced by this bot uses
them.) -/
def pyInt (s : String) : Option Int :=
  match (pyTrim s).data with
  | [] => none
  | c :: rest =>
    if c = '-' then (digitsVal rest).map (fun n => -(n : Int))
    else if c = '+' then (digitsVal rest).map (fun n => (n : Int))
    else (digitsVal (c :: rest)).map (fun n => (n : Int))

/-- Python `s.split(":", 1)` followed by unpacking into two names: `none`
models the `ValueError` raised when the string has no colon. -/
def splitColon1 (s : String) : Option (String × String) :=
  let pre := s.data.takeWhile (fun c => !(decide (c = ':')))
  let suf := s.data.dropWhile (fun c => !(decide (c = ':')))
  match suf with
  | [] => none
  | _ :: rest => some (String.mk pre, String.mk rest)

/-- Payload parsing `_, user_id_str = data.split(":", 1); int(user_id_str)`
under `try/except`. -/
def parse_payload_int (data : String) : Option Int :=
  match splitColon1 data with
  | none => none
  | some pr => pyInt pr.2

/-- Python `s.split(maxsplit=1)`: drop leading whitespace, take the first
whitespace-free word, then the remainder with its leading whitespace
dropped. -/
def py_split_max1 (s : String) : List String :=
  let cs := s.data.dropWhile Char.isWhitespace
  match cs with
  | [] => []
  | _ =>
    let first := cs.takeWhile (fun c => !c.isWhitespace)
    let rest := (cs.dropWhile (fun c => !c.isWhitespace)).dropWhile Char.isWhitespace
    match rest with
    | [] => [String.mk first]
    | _ => [String.mk first, String.mk rest]

/-- Python `str.lower()`, restricted to ASCII case mapping.  (The source
compares against lowercase Russian words; a Cyrillic-uppercase argument
would be lowered by Python but not here — this only affects which localized
reply `/anon <arg>` picks, never the routing.) -/
def pyLower (s : String) : String := String.mk (s.data.map Char.toLower)

/- `get_user_settings`: lazily creates the default record.  Returns the
(possibly fresh) record and the updated state. -/

def get_user_settings_upd (s : BotState) (uid : Int) : Settings × BotState :=
  match alookup s.user_settings uid with
  | some v => (v, s)
  | none =>
    (defaultSettings, {s with user_settings := aset s.user_settings uid defaultSettings})

/-- The send-and-pin fallback of `ensure_status_message`. -/
def statusSend (uid : Int) (st : Settings) (text : String) (s : BotState) :
    BotState × List Action :=
  let mid := s.nextMsgId
  let s := {s with nextMsgId := mid + 1}
  let us := aset s.user_settings uid {st with status_msg_id := some mid}
  let s := {s with user_settings := us}
  (s, [Action.sendMessageA uid text none, Action.pinA uid mid])

/-- Handler `ensure_status_message`: edit the pinned status message if its id is
recorded (and truthy), otherwise send and pin a new one.  The edit is
modelled as succeeding; on failure the source falls back to the send path,
which is transport nondeterminism. -/
def ensure_status_message (uid : Int) (s : BotState) : BotState × List Action :=
  let p := get_user_settings_upd s uid
  let st := p.1
  let s := p.2
  let text := build_status_text st.lang st.anon
  match st.status_msg_id with
  | some mid =>
    if mid ≠ 0 then (s, [Action.editTextA uid mid text none])
    else statusSend uid st text s
  | none => statusSend uid st text s

/- `handle_user_message` and its branch bodies. -/

/-- The command guard `message.text and message.text.startswith("/")`. -/
def isSlashText : MsgContent → Bool
  | MsgContent.text t => strStarts t "/"
  | _ => false

/-- Content kind as logged to `user_message_log`; only reachable for
text/photo/video (service content returns earlier). -/
def kindOf : MsgContent → MKind
  | MsgContent.photo _ _ => MKind.photoK
  | MsgContent.video _ _ => MKind.videoK
  | _ => MKind.textK

/-- Album bookkeeping: first item of an unseen `media_group_id` marks the
group handled. -/
def album_mark (mg : Option String) (s : BotState) : Bool × BotState :=
  match mg with
  | some g =>
    if g ∈ s.handled_media_groups then (false, s)
    else
      (true, {s with handled_media_groups := sinsert g s.handled_media_groups})
  | none => (false, s)

/-- The addendum block appended when coalescing a text into the previous
relayed notification. -/
def coalesce_addendum (t : String) : String := "\n\n➕ <b>Дополнение:</b>\n" ++ t

def text_new_body (anon : Bool) (u : TgUser) (t : String) : String :=
  if anon then
    "📩 <b>Новое анонимное сообщение</b>\n\n💬 <b>Текст:</b>\n" ++ t
  else
    "📩 <b>Новое сообщение от пользователя</b>\n\n" ++ format_user_info u ++
    "\n\n💬 <b>Текст:</b>\n" ++ t

def photo_caption_body (anon : Bool) (u : TgUser) (caption : String) : String :=
  if anon then
    "📩 <b>Новое анонимное сообщение с фото</b>\n\n💬 <b>Подпись:</b>\n" ++ caption
  else
    "📩 <b>Новое сообщение с фото от пользователя</b>\n\n" ++ format_user_info u ++
    "\n\n💬 <b>Подпись:</b>\n" ++ caption

def video_caption_body (anon : Bool) (u : TgUser) (caption : String) : String :=
  if anon then
    "📩 <b>Новое анонимное сообщение с видео</b>\n\n💬 <b>Подпись:</b>\n" ++ caption
  else
    "📩 <b>Новое сообщение с видео от пользователя</b>\n\n" ++ format_user_info u ++
    "\n\n💬 <b>Подпись:</b>\n" ++ caption

/-- Fresh relayed text notification: send with the ban keyboard, overwrite
`last_admin_message`, record the reply binding. -/
def hum_text_new (now : Nat) (u : TgUser) (anon : Bool) (t : String)
    (s : BotState) : BotState × List Action :=
  let base_text := text_new_body anon u t
  let mid := s.nextMsgId
  let s := {s with nextMsgId := mid + 1}
  let lam := aset s.last_admin_message u.id ⟨ADMIN_CHAT_ID, mid, base_text, now, false, anon⟩
  let s := {s with last_admin_message := lam}
  let tgt := aset s.message_targets (ADMIN_CHAT_ID, mid) u.id
  let s := {s with message_targets := tgt}
  (s, [Action.sendMessageA ADMIN_CHAT_ID base_text (some (Kb.banK u.id))])

/-- Text branch of `handle_user_message`: coalesce into the previous relayed
notification when it is at most 60 seconds old, else create a new one. -/
def hum_text (now : Nat) (u : TgUser) (anon : Bool) (t : String)
    (s : BotState) : BotState × List Action :=
  match alookup s.last_admin_message u.id with
  | some info =>
    if now - info.time ≤ 60 then
      let new_block := info.text ++ coalesce_addendum t
      let kb := if u.id ∈ s.banned_users then Kb.unbanK u.id else Kb.banK u.id
      let act :=
        if info.has_media then
          Action.editCaptionA info.chat_id info.message_id new_block (some kb)
        else
          Action.editTextA info.chat_id info.message_id new_block (some kb)
      let lam := aset s.last_admin_message u.id {info with time := now, text := new_block}
      ({s with last_admin_message := lam}, [act])
    else hum_text_new now u anon t s
  | none => hum_text_new now u anon t s

/-- Photo branch of `handle_user_message`. -/
def hum_photo (now : Nat) (u : TgUser) (anon : Bool) (fid : String)
    (cap : Option String) (mg : Option String) (is_album_first : Bool)
    (s : BotState) : BotState × List Action :=
  let caption := cap.getD ""
  let admin_caption := photo_caption_body anon u caption
  if mg.isSome = true ∧ is_album_first = false then
    (s, [Action.sendPhotoA ADMIN_CHAT_ID fid
      (if caption = "" then none else some caption) none])
  else
    let mid := s.nextMsgId
    let s := {s with nextMsgId := mid + 1}
    let lam := aset s.last_admin_message u.id ⟨ADMIN_CHAT_ID, mid, admin_caption, now, true, anon⟩
    let s := {s with last_admin_message := lam}
    let tgt := aset s.message_targets (ADMIN_CHAT_ID, mid) u.id
    let s := {s with message_targets := tgt}
    (s, [Action.sendPhotoA ADMIN_CHAT_ID fid (some admin_caption) (some (Kb.banK u.id))])

/-- Video branch of `handle_user_message`. -/
def hum_video (now : Nat) (u : TgUser) (anon : Bool) (fid : String)
    (cap : Option String) (mg : Option String) (is_album_first : Bool)
    (s : BotState) : BotState × List Action :=
  let caption := cap.getD ""
  let admin_caption := video_caption_body anon u caption
  if mg.isSome = true ∧ is_album_first = false then
    (s, [Action.sendVideoA ADMIN_CHAT_ID fid
      (if caption = "" then none else some caption) none])
  else
    let mid := s.nextMsgId
    let s := {s with nextMsgId := mid + 1}
    let lam := aset s.last_admin_message u.id ⟨ADMIN_CHAT_ID, mid, admin_caption, now, true, anon⟩
    let s := {s with last_admin_message := lam}
    let tgt := aset s.message_targets (ADMIN_CHAT_ID, mid) u.id
    let s := {s with message_targets := tgt}
    (s, [Action.sendVideoA ADMIN_CHAT_ID fid (some admin_caption) (some (Kb.banK u.id))])

/-- The catch-all private-message handler. -/
def handle_user_message (now : Nat) (m : Msg) (s0 : BotState) :
    BotState × List Action :=
  let uid := m.sender.id
  let p := get_user_settings_upd s0 uid
  let st := p.1
  let s := p.2
  let lang := st.lang
  let anon := st.anon
  if isSlashText m.content = true then (s, [])
  else if m.content = MsgContent.pinned then (s, [])
  else if uid ∈ s.banned_users then
    (s, [Action.answerUser uid (build_blocked_text lang) none])
  else
    let ab := album_mark m.mediaGroupId s
    let is_album_first := ab.1
    let s := ab.2
    if m.content = MsgContent.unsupported then
      (s, [Action.answerUser uid (build_unsupported_text lang) none])
    else
      let logIt := m.mediaGroupId.isNone = true ∨ is_album_first = true
      let newLog := s.user_message_log ++ [⟨uid, now, kindOf m.content, anon⟩]
      let s := if logIt then {s with user_message_log := newLog} else s
      let acks :=
        if logIt then [Action.answerUser uid (build_thanks_text lang) none] else []
      let r :=
        match m.content with
        | MsgContent.text t => hum_text now m.sender anon t s
        | MsgContent.photo fid cap =>
          hum_photo now m.sender anon fid cap m.mediaGroupId is_album_first s
        | MsgContent.video fid cap =>
          hum_video now m.sender anon fid cap m.mediaGroupId is_album_first s
        | _ => (s, [Action.answerUser uid (build_unsupported_text lang) none])
      (r.1, acks ++ r.2)

/- `handle_admin_reply`. -/

/-- Forwarding action for an administrator reply (text, photo, video, or the
placeholder for anything else). -/
def reply_forward_act (header : String) (uid : Int) : MsgContent → Action
  | MsgContent.text t => Action.sendMessageA uid (header ++ "\n\n" ++ t) none
  | MsgContent.photo fid cap =>
    Action.sendPhotoA uid fid (some (header ++ "\n\n" ++ cap.getD "")) none
  | MsgContent.video fid cap =>
    Action.sendVideoA uid fid (some (header ++ "\n\n" ++ cap.getD "")) none
  | _ =>
    Action.sendMessageA uid
      (header ++ "\n\n(отправлен ответ, который я пока не умею переслать в исходном виде)")
      none

/-- Administrator reply in the admin chat, `rid` the replied-to message id.
`if not user_id` in the source is also true for a binding to id `0`. -/
def handle_admin_reply (m : Msg) (rid : Nat) (s0 : BotState) :
    BotState × List Action :=
  match alookup s0.message_targets (m.chatId, rid) with
  | none => (s0, [])
  | some uid =>
    if uid = 0 then (s0, [])
    else
      let p := get_user_settings_upd s0 uid
      let st := p.1
      let s := p.2
      let header := build_answer_header st.lang
      if uid ∈ s.banned_users then
        (s, [Action.replyAdminA "Пользователь уже заблокирован, ответ не отправлен." none])
      else
        (s, [reply_forward_act header uid m.content,
             Action.replyAdminA "✅ Ответ отправлен пользователю." none])

/- Ban / unban callback handlers. -/

def handle_ban_button (c : Cb) (s : BotState) : BotState × List Action :=
  match parse_payload_int c.data with
  | none => (s, [Action.cbAnswerA "Ошибка: не могу прочитать ID пользователя." true])
  | some uid =>
    (s, [Action.editMarkupA c.chatId c.originMsgId (Kb.banConfirmK uid),
         Action.cbAnswerA "Вы уверены, что хотите заблокировать пользователя?" false])

def handle_ban_confirm (env : Int → Option (String × Option String)) (now : Nat)
    (c : Cb) (s : BotState) : BotState × List Action :=
  match parse_payload_int c.data with
  | none => (s, [Action.cbAnswerA "Ошибка: не могу прочитать ID пользователя." true])
  | some uid =>
    let s := {s with banned_users := sinsert uid s.banned_users}
    let ent : BanEntry :=
      match env uid with
      | some pr => ⟨now, some pr.1, pr.2⟩
      | none => ⟨now, none, none⟩
    let s := {s with ban_log := aset s.ban_log uid ent}
    (s, [Action.editMarkupA c.chatId c.originMsgId (Kb.unbanK uid),
         Action.cbAnswerA "Пользователь добавлен в черный список." false])

def handle_ban_cancel (c : Cb) (s : BotState) : BotState × List Action :=
  match parse_payload_int c.data with
  | none => (s, [Action.cbAnswerA "Отмена." false])
  | some uid =>
    (s, [Action.editMarkupA c.chatId c.originMsgId (Kb.banK uid),
         Action.cbAnswerA "Блокировка отменена." false])

def handle_unban_button (c : Cb) (s : BotState) : BotState × List Action :=
  match parse_payload_int c.data with
  | none => (s, [Action.cbAnswerA "Ошибка: не могу прочитать ID пользователя." true])
  | some uid =>
    (s, [Action.editMarkupA c.chatId c.originMsgId (Kb.unbanConfirmK uid),
         Action.cbAnswerA "Подтвердить разблокировку пользователя?" false])

def handle_unban_confirm (c : Cb) (s : BotState) : BotState × List Action :=
  match parse_payload_int c.data with
  | none => (s, [Action.cbAnswerA "Ошибка: не могу прочитать ID пользователя." true])
  | some uid =>
    let s := {s with banned_users := sremove uid s.banned_users}
    let s := {s with ban_log := aerase s.ban_log uid}
    (s, [Action.editMarkupA c.chatId c.originMsgId (Kb.banK uid),
         Action.cbAnswerA "Пользователь удален из черного списка." false])

def handle_unban_cancel (c : Cb) (s : BotState) : BotState × List Action :=
  match parse_payload_int c.data with
  | none => (s, [Action.cbAnswerA "Отмена." false])
  | some uid =>
    (s, [Action.editMarkupA c.chatId c.originMsgId (Kb.unbanK uid),
         Action.cbAnswerA "Разблокировка отменена." false])

/- Private-chat command and callback handlers. -/

def cmd_start (m : Msg) (s0 : BotState) : BotState × List Action :=
  let uid := m.sender.id
  let p := get_user_settings_upd s0 uid
  let st := p.1
  let s := p.2
  let r := ensure_status_message uid s
  (r.1,
   [Action.answerUser uid (build_start_text st.lang)
      (some (Kb.startK st.lang st.anon))] ++ r.2)

def cb_toggle_anon (c : Cb) (s0 : BotState) : BotState × List Action :=
  let uid := c.sender.id
  let p := get_user_settings_upd s0 uid
  let st := p.1
  let s := p.2
  let st2 := {st with anon := !st.anon}
  let s := {s with user_settings := aset s.user_settings uid st2}
  let lang := st2.lang
  let r := ensure_status_message uid s
  (r.1,
   r.2 ++
   [Action.editMarkupA c.chatId c.originMsgId (Kb.startK lang st2.anon),
    Action.cbAnswerA
      (if st2.anon = true then build_anon_on_text lang else build_anon_off_text lang)
      false])

def cb_set_lang (c : Cb) (s0 : BotState) : BotState × List Action :=
  let uid := c.sender.id
  let p := get_user_settings_upd s0 uid
  let st := p.1
  let s := p.2
  let lang_code :=
    match splitColon1 c.data with
    | some pr => pr.2
    | none => ""
  if lang_code = "ru" ∨ lang_code = "en" then
    let langNew := if lang_code = "en" then Lang.en else Lang.ru
    let st2 := {st with lang := langNew}
    let s := {s with user_settings := aset s.user_settings uid st2}
    let r := ensure_status_message uid s
    (r.1,
     r.2 ++
     [Action.editTextA c.chatId c.originMsgId (build_start_text langNew)
        (some (Kb.startK langNew st2.anon)),
      Action.cbAnswerA
        (if langNew = Lang.en then "Language switched to English"
         else "Язык переключен на русский") false])
  else (s, [Action.cbAnswerA "Unknown language" true])

def cmd_anon (m : Msg) (s0 : BotState) : BotState × List Action :=
  let uid := m.sender.id
  let p := get_user_settings_upd s0 uid
  let st := p.1
  let s := p.2
  let lang := st.lang
  let t :=
    match m.content with
    | MsgContent.text t => t
    | _ => ""
  match py_split_max1 t with
  | [] => (s, [])
  | [_] =>
    let st2 := {st with anon := !st.anon}
    let s := {s with user_settings := aset s.user_settings uid st2}
    let r := ensure_status_message uid s
    (r.1,
     r.2 ++
     [Action.answerUser uid
        (if st2.anon = true then build_anon_on_text lang else build_anon_off_text lang)
        none])
  | _ :: arg0 :: _ =>
    let arg := pyLower (pyTrim arg0)
    if arg = "on" ∨ arg = "вкл" ∨ arg = "on." ∨ arg = "включить" then
      let st2 := {st with anon := true}
      let s := {s with user_settings := aset s.user_settings uid st2}
      let r := ensure_status_message uid s
      (r.1, r.2 ++ [Action.answerUser uid (build_anon_on_text lang) none])
    else if arg = "off" ∨ arg = "выкл" ∨ arg = "выключить" then
      let st2 := {st with anon := false}
      let s := {s with user_settings := aset s.user_settings uid st2}
      let r := ensure_status_message uid s
      (r.1, r.2 ++ [Action.answerUser uid (build_anon_off_text lang) none])
    else (s, [Action.answerUser uid (anon_usage_text lang) none])

/- `/bans` listing and the statistics views. -/

/-- Local-time date rendering (`time.strftime` over `time.localtime`) is a
presentation concern and is modelled opaquely by the timestamp's decimal
form. -/
def format_ban_time (ts : Nat) : String := toString ts

/-- Text of one `/bans` entry; `if ts:` in the source is false for the
timestamp `0`. -/
def ban_entry_text (i : Nat) (uid : Int) (ent : Option BanEntry) : String :=
  match ent with
  | some info =>
    let name := info.name.getD "Имя неизвестно"
    let dt_str := if info.timestamp ≠ 0 then format_ban_time info.timestamp
                  else "дата неизвестна"
    let base := toString i ++ ") " ++ name
    let base :=
      match info.username with
      | some un => base ++ " (@" ++ un ++ ")"
      | none => base
    base ++ "\nID: <code>" ++ toString uid ++ "</code>\nЗаблокирован: " ++ dt_str
  | none =>
    toString i ++ ") ID: <code>" ++ toString uid ++ "</code>\nДополнительных данных нет."

def cmd_bans (s : BotState) : BotState × List Action :=
  if s.banned_users = [] then
    (s, [Action.replyAdminA "🚫 В черном списке пока никого нет." none])
  else
    let sorted := s.banned_users.mergeSort (fun a b => decide (a ≤ b))
    (s,
     ((List.range sorted.length).zip sorted).map
       (fun pr =>
         Action.replyAdminA (ban_entry_text (pr.1 + 1) pr.2 (alookup s.ban_log pr.2))
           (some (Kb.unbanK pr.2))))

def cmd_stats (s : BotState) : BotState × List Action :=
  (s, [Action.replyAdminA "Выберите период для статистики:" (some Kb.statsMenuK)])

/-- Cutoff timestamp for a stats period (`now - window`, `0` for all time). -/
def stats_cutoff (period : String) (now : Nat) : Nat :=
  if period = "day" then now - 24 * 60 * 60
  else if period = "week" then now - 7 * 24 * 60 * 60
  else if period = "month" then now - 30 * 24 * 60 * 60
  else 0

/-- The filtered sequence `[e for e in user_message_log if e["timestamp"] >= cutoff]`. -/
def stats_filtered (period : String) (now : Nat) (log : List StatsEvent) :
    List StatsEvent :=
  log.filter (fun e => decide (stats_cutoff period now ≤ e.timestamp))

def stats_total (period : String) (now : Nat) (log : List StatsEvent) : Nat :=
  (stats_filtered period now log).length

/-- Distinct users `len({e["user_id"] for e in filtered})`. -/
def stats_users (period : String) (now : Nat) (log : List StatsEvent) : Nat :=
  ((stats_filtered period now log).map StatsEvent.user_id).dedup.length

/-- Per-kind count `sum(1 for e in filtered if e["type"] == ...)`. -/
def stats_kind_count (k : MKind) (period : String) (now : Nat)
    (log : List StatsEvent) : Nat :=
  (stats_filtered period now log).countP (fun e => decide (e.kind = k))

/-- Distinct anonymous senders `len({e["user_id"] for e in filtered if e["is_anon"]})`. -/
def stats_anon_users (period : String) (now : Nat) (log : List StatsEvent) : Nat :=
  (((stats_filtered period now log).filter (fun e => e.is_anon)).map
    StatsEvent.user_id).dedup.length

def build_stats_text (now : Nat) (period : String) (s : BotState) : String :=
  let label := build_stats_period_label period
  if stats_filtered period now s.user_message_log = [] then
    "📊 За период " ++ label ++ " сообщений от пользователей не было."
  else
    "📊 <b>Статистика " ++ label ++ "</b>\n\n" ++
    "Всего сообщений: <b>" ++ toString (stats_total period now s.user_message_log) ++
    "</b>\nУникальных пользователей: <b>" ++
    toString (stats_users period now s.user_message_log) ++
    "</b>\nТекстовых сообщений: <b>" ++
    toString (stats_kind_count MKind.textK period now s.user_message_log) ++
    "</b>\nСообщений с фото: <b>" ++
    toString (stats_kind_count MKind.photoK period now s.user_message_log) ++
    "</b>\nСообщений с видео: <b>" ++
    toString (stats_kind_count MKind.videoK period now s.user_message_log) ++
    "</b>\nПользователей, писавших анонимно в этот период: <b>" ++
    toString (stats_anon_users period now s.user_message_log) ++
    "</b>\nЗаблокированных пользователей сейчас: <b>" ++
    toString s.banned_users.length ++ "</b>"

def handle_stats_callback (now : Nat) (c : Cb) (s : BotState) :
    BotState × List Action :=
  let period :=
    match splitColon1 c.data with
    | some pr => pr.2
    | none => ""
  if period = "back" then
    (s, [Action.editTextA c.chatId c.originMsgId "Выберите период для статистики:"
           (some Kb.statsMenuK),
         Action.cbAnswerA "" false])
  else
    (s, [Action.editTextA c.chatId c.originMsgId (build_stats_text now period s)
           (some Kb.statsBackK),
         Action.cbAnswerA "" false])

/- The dispatcher and webhook entry point. -/

def msg_text (m : Msg) : Option String :=
  match m.content with
  | MsgContent.text t => some t
  | _ => none

/-- Does the message carry a text with the given prefix (aiogram
`F.text.regexp` with an anchored pattern)? -/
def textHasPrefix (m : Msg) (p : String) : Bool :=
  match msg_text m with
  | some t => strStarts t p
  | none => false

/-- The aiogram dispatcher: handlers are tried in registration order, first
matching filter wins.  Private message handlers precede the admin-chat
handlers; the catch-all `handle_user_message` absorbs every private
message. -/
def dispatch (env : Int → Option (String × Option String)) (now : Nat)
    (e : Event) (s : BotState) : BotState × List Action :=
  match e with
  | Event.message m =>
    if m.chatPrivate = true ∧ msg_text m = some "/start" then cmd_start m s
    else if m.chatPrivate = true ∧ textHasPrefix m "/anon" = true then cmd_anon m s
    else if m.chatPrivate = true then handle_user_message now m s
    else if m.chatId = ADMIN_CHAT_ID ∧ m.replyTo.isSome = true then
      handle_admin_reply m (m.replyTo.getD 0) s
    else if m.chatId = ADMIN_CHAT_ID ∧ msg_text m = some "/bans" then cmd_bans s
    else if m.chatId = ADMIN_CHAT_ID ∧ msg_text m = some "/stats" then cmd_stats s
    else (s, [])
  | Event.callbackQ c =>
    if c.chatPrivate = true ∧ c.data = "toggle_anon" then cb_toggle_anon c s
    else if c.chatPrivate = true ∧ strStarts c.data "lang:" = true then cb_set_lang c s
    else if c.chatId = ADMIN_CHAT_ID ∧ strStarts c.data "ban:" = true then
      handle_ban_button c s
    else if c.chatId = ADMIN_CHAT_ID ∧ strStarts c.data "banconfirm:" = true then
      handle_ban_confirm env now c s
    else if c.chatId = ADMIN_CHAT_ID ∧ strStarts c.data "bancancel:" = true then
      handle_ban_cancel c s
    else if c.chatId = ADMIN_CHAT_ID ∧ strStarts c.data "unban:" = true then
      handle_unban_button c s
    else if c.chatId = ADMIN_CHAT_ID ∧ strStarts c.data "unbanconfirm:" = true then
      handle_unban_confirm c s
    else if c.chatId = ADMIN_CHAT_ID ∧ strStarts c.data "unbancancel:" = true then
      handle_unban_cancel c s
    else if c.chatId = ADMIN_CHAT_ID ∧ strStarts c.data "stats:" = true then
      handle_stats_callback now c s
    else (s, [])

/-- Webhook entry `telegram_webhook`: drop the update if its id was already processed,
otherwise record the id and feed the update to the dispatcher. -/
def routeEvent (env : Int → Option (String × Option String)) (now updateId : Nat)
    (e : Event) (s : BotState) : BotState × List Action :=
  if updateId ∈ s.processed_updates then (s, [])
  else dispatch env now e
    {s with processed_updates := sinsert updateId s.processed_updates}

/-- Sequential routing of a list of timed private messages through
`handle_user_message` (used for batch claims). -/
def runMsgs (tms : List (Nat × Msg)) (s : BotState) : BotState × List Action :=
  match tms with
  | [] => (s, [])
  | (t, m) :: rest =>
    let r := handle_user_message t m s
    let r2 := runMsgs rest r.1
    (r2.1, r.2 ++ r2.2)

/-- Intermediate state of `handle_user_message` after the statistics append
(non-batch messages): only the settings record and the statistics log have
changed. -/
def logState (now : Nat) (m : Msg) (s : BotState) (k : MKind) : BotState :=
  {(get_user_settings_upd s m.sender.id).2 with
    user_message_log := s.user_message_log ++
      [⟨m.sender.id, now, k, (get_user_settings_upd s m.sender.id).1.anon⟩]}

/-- Intermediate state of `handle_user_message` after acknowledging a fresh
batch `g` and appending its single statistics event. -/
def batchState (now : Nat) (m : Msg) (s : BotState) (g : String) (k : MKind) :
    BotState :=
  {(get_user_settings_upd s m.sender.id).2 with
    handled_media_groups := sinsert g s.handled_media_groups,
    user_message_log := s.user_message_log ++
      [⟨m.sender.id, now, k, (get_user_settings_upd s m.sender.id).1.anon⟩]}

/- Predicates used to state the claims. -/

/-- Relation `SameCore s₁ s₂`: the two states agree on the deduplication and
moderation stores. -/
def SameCore (s₁ s₂ : BotState) : Prop :=
  s₁.processed_updates = s₂.processed_updates ∧
  s₁.banned_users = s₂.banned_users ∧
  s₁.ban_log = s₂.ban_log

/-- The moderation invariant: the ban audit log's keys are exactly the
currently blocked set. -/
def banInv (s : BotState) : Prop :=
  ∀ u : Int, u ∈ akeys s.ban_log ↔ u ∈ s.banned_users

/-- Events whose dispatch target is neither block-confirmation nor
unblock-confirmation. -/
def nonModEvent : Event → Prop
  | Event.message _ => True
  | Event.callbackQ c =>
    ¬(c.chatId = ADMIN_CHAT_ID ∧
      (strStarts c.data "banconfirm:" = true ∨ strStarts c.data "unbanconfirm:" = true))

/-- Is this action the user acknowledgement (`build_thanks_text`)? -/
def isAckAct (u : Int) : Action → Bool
  | Action.answerUser v t kb =>
    v == u && kb == none &&
      (t == build_thanks_text Lang.ru || t == build_thanks_text Lang.en)
  | _ => false

/-- Is this action a send into the admin chat carrying an inline keyboard
(moderation controls)? -/
def isAdminSendWithControls : Action → Bool
  | Action.sendMessageA ch _ (some _) => ch == ADMIN_CHAT_ID
  | Action.sendPhotoA ch _ _ (some _) => ch == ADMIN_CHAT_ID
  | Action.sendVideoA ch _ _ (some _) => ch == ADMIN_CHAT_ID
  | _ => false

/-- Is this action a bare (keyboard-free) media send into the admin chat? -/
def isBareMediaSend : Action → Bool
  | Action.sendPhotoA ch _ _ none => ch == ADMIN_CHAT_ID
  | Action.sendVideoA ch _ _ none => ch == ADMIN_CHAT_ID
  | _ => false

/-- Is this action an edit of an existing message (text or caption)? -/
def isEditAct : Action → Bool
  | Action.editTextA _ _ _ _ => true
  | Action.editCaptionA _ _ _ _ => true
  | _ => false

/-- Is this action the localized blocked notice to user `u`? -/
def isBlockedNotice (u : Int) : Action → Bool
  | Action.answerUser v t _ =>
    v == u && (t == build_blocked_text Lang.ru || t == build_blocked_text Lang.en)
  | _ => false

/-- Destination chat of a send action, if it is a send. -/
def sendChatOf : Action → Option Int
  | Action.sendMessageA ch _ _ => some ch
  | Action.sendPhotoA ch _ _ _ => some ch
  | Action.sendVideoA ch _ _ _ => some ch
  | _ => none

/-- Content that passes both the command guard and the pinned-service guard
of `handle_user_message` (so the ban check is reached). -/
def notServiceContent (c : MsgContent) : Prop :=
  c ≠ MsgContent.pinned ∧ ∀ t, c = MsgContent.text t → strStarts t "/" = false

/-- Content that is actually relayed: non-command text, photo, or video. -/
def relayableContent (c : MsgContent) : Prop :=
  (∃ t, c = MsgContent.text t ∧ strStarts t "/" = false) ∨
  (∃ f cp, c = MsgContent.photo f cp) ∨ (∃ f cp, c = MsgContent.video f cp)

/-- Photo or video content. -/
def mediaContent (c : MsgContent) : Prop :=
  (∃ f cp, c = MsgContent.photo f cp) ∨ (∃ f cp, c = MsgContent.video f cp)

/-- A private photo/video message by user `u` belonging to batch `g`. -/
def msgInBatch (u : Int) (g : String) (m : Msg) : Prop :=
  m.sender.id = u ∧ m.mediaGroupId = some g ∧ mediaContent m.content

/- Concrete fixtures used by witnesses and counterexamples. -/

/-- Identity oracle that always fails (lookup degradation). -/
def env0 : Int → Option (String × Option String) := fun _ => none

def wUser : TgUser := ⟨7, "Alice", some "alice"⟩

/-- A private text message from user 7. -/
def wText (t : String) : Msg := ⟨7, true, wUser, MsgContent.text t, none, none⟩

/-- A private photo message from user 7, optionally in a media group. -/
def wPhoto (g : Option String) : Msg :=
  ⟨7, true, wUser, MsgContent.photo "f1" none, g, none⟩

/-- A message in a chat that is neither private nor the admin chat:
dispatched to no handler. -/
def wIgnoredEvent : Event :=
  Event.message ⟨99, false, wUser, MsgContent.text "x", none, none⟩

/-- State with a one-minute-old relayed text notification for user 7. -/
def wCoalState : BotState :=
  {initialState with
    last_admin_message := [(7, ⟨ADMIN_CHAT_ID, 3, "old", 0, false, false⟩)]}

/-- State where user 7 is blocked. -/
def wBanState : BotState := {initialState with banned_users := [7]}

/-- State with a reply binding to the sentinel user id 0 and one to the
blocked user 5. -/
def cexBindState : BotState :=
  {initialState with
    message_targets := [((ADMIN_CHAT_ID, 10), 0), ((ADMIN_CHAT_ID, 11), 5)],
    banned_users := [5]}

/-- An administrator text reply in the admin chat. -/
def wAdminReply : Msg :=
  ⟨ADMIN_CHAT_ID, false, ⟨42, "Admin", none⟩, MsgContent.text "hi", none, some 10⟩

/-- State with a reply binding of notification 11 to (unblocked) user 7. -/
def wDeliverState : BotState :=
  {initialState with message_targets := [((ADMIN_CHAT_ID, 11), 7)]}

/-- An admin-chat callback with an unparseable ban-confirm payload. -/
def cexBadCb : Cb := ⟨ADMIN_CHAT_ID, false, ⟨42, "Admin", none⟩, "banconfirm:abc", 3⟩

/-- An admin-chat callback confirming the unblock of user 7. -/
def wUnbanCb : Cb := ⟨ADMIN_CHAT_ID, false, ⟨42, "Admin", none⟩, "unbanconfirm:7", 3⟩

/- Association-list and set lemmas. -/

theorem alookup_aset_self {κ α : Type} [DecidableEq κ] (l : List (κ × α)) (k : κ)
    (v : α) : alookup (aset l k v) k = some v := by
  simp [alookup, aset]

theorem mem_akeys_aset {κ α : Type} [DecidableEq κ] (l : List (κ × α)) (k x : κ)
    (v : α) : x ∈ akeys (aset l k v) ↔ x = k ∨ x ∈ akeys l := by
  by_cases hx : x = k
  · simp [akeys, aset, hx]
  · simp only [akeys, aset, List.map_cons, List.mem_cons, hx, false_or]
    simp only [List.mem_map, List.mem_filter]
    constructor
    · rintro ⟨p, ⟨hp, _⟩, hpx⟩
      exact ⟨p, hp, hpx⟩
    · rintro ⟨p, hp, hpx⟩
      refine ⟨p, ⟨hp, ?_⟩, hpx⟩
      simp [hpx, hx]

theorem mem_akeys_aerase {κ α : Type} [DecidableEq κ] (l : List (κ × α)) (k x : κ) :
    x ∈ akeys (aerase l k) ↔ x ∈ akeys l ∧ x ≠ k := by
  simp only [akeys, aerase, List.mem_map, List.mem_filter]
  constructor
  · rintro ⟨p, ⟨hp, hpk⟩, hpx⟩
    refine ⟨⟨p, hp, hpx⟩, ?_⟩
    simp only [Bool.not_eq_eq_eq_not, Bool.not_true, decide_eq_false_iff_not] at hpk
    exact hpx ▸ hpk
  · rintro ⟨⟨p, hp, hpx⟩, hxk⟩
    refine ⟨p, ⟨hp, ?_⟩, hpx⟩
    simp [hpx, hxk]

theorem mem_sinsert {α : Type} [DecidableEq α] (x y : α) (l : List α) :
    x ∈ sinsert y l ↔ x = y ∨ x ∈ l := by
  unfold sinsert
  split
  · constructor
    · exact fun h => Or.inr h
    · rintro (rfl | h) <;> assumption
  · simp [List.mem_cons]

theorem self_mem_sinsert {α : Type} [DecidableEq α] (y : α) (l : List α) :
    y ∈ sinsert y l := (mem_sinsert y y l).mpr (Or.inl rfl)

theorem mem_sremove {α : Type} [DecidableEq α] (x y : α) (l : List α) :
    x ∈ sremove y l ↔ x ∈ l ∧ x ≠ y := by
  simp only [sremove, List.mem_filter, Bool.not_eq_eq_eq_not, Bool.not_true,
    decide_eq_false_iff_not]

theorem not_mem_sremove_self {α : Type} [DecidableEq α] (y : α) (l : List α) :
    y ∉ sremove y l := by
  intro h
  exact ((mem_sremove y y l).mp h).2 rfl

/- Per-field frame lemmas for `get_user_settings_upd` (it only touches
`user_settings`). -/

@[simp] theorem gus_targets (s : BotState) (uid : Int) :
    (get_user_settings_upd s uid).2.message_targets = s.message_targets := by
  unfold get_user_settings_upd
  split <;> rfl

@[simp] theorem gus_processed (s : BotState) (uid : Int) :
    (get_user_settings_upd s uid).2.processed_updates = s.processed_updates := by
  unfold get_user_settings_upd
  split <;> rfl

@[simp] theorem gus_banned (s : BotState) (uid : Int) :
    (get_user_settings_upd s uid).2.banned_users = s.banned_users := by
  unfold get_user_settings_upd
  split <;> rfl

@[simp] theorem gus_ban_log (s : BotState) (uid : Int) :
    (get_user_settings_upd s uid).2.ban_log = s.ban_log := by
  unfold get_user_settings_upd
  split <;> rfl

@[simp] theorem gus_log (s : BotState) (uid : Int) :
    (get_user_settings_upd s uid).2.user_message_log = s.user_message_log := by
  unfold get_user_settings_upd
  split <;> rfl

@[simp] theorem gus_last_admin (s : BotState) (uid : Int) :
    (get_user_settings_upd s uid).2.last_admin_message = s.last_admin_message := by
  unfold get_user_settings_upd
  split <;> rfl

@[simp] theorem gus_handled (s : BotState) (uid : Int) :
    (get_user_settings_upd s uid).2.handled_media_groups = s.handled_media_groups := by
  unfold get_user_settings_upd
  split <;> rfl

@[simp] theorem gus_next (s : BotState) (uid : Int) :
    (get_user_settings_upd s uid).2.nextMsgId = s.nextMsgId := by
  unfold get_user_settings_upd
  split <;> rfl

/- Field lemmas for the intermediate states. -/

@[simp] theorem logState_targets (now : Nat) (m : Msg) (s : BotState) (k : MKind) :
    (logState now m s k).message_targets = s.message_targets := by
  simp [logState]

@[simp] theorem logState_banned (now : Nat) (m : Msg) (s : BotState) (k : MKind) :
    (logState now m s k).banned_users = s.banned_users := by
  simp [logState]

@[simp] theorem logState_last_admin (now : Nat) (m : Msg) (s : BotState) (k : MKind) :
    (logState now m s k).last_admin_message = s.last_admin_message := by
  simp [logState]

@[simp] theorem logState_next (now : Nat) (m : Msg) (s : BotState) (k : MKind) :
    (logState now m s k).nextMsgId = s.nextMsgId := by
  simp [logState]

@[simp] theorem logState_log (now : Nat) (m : Msg) (s : BotState) (k : MKind) :
    (logState now m s k).user_message_log = s.user_message_log ++
      [⟨m.sender.id, now, k, (get_user_settings_upd s m.sender.id).1.anon⟩] := by
  simp [logState]

@[simp] theorem logState_handled (now : Nat) (m : Msg) (s : BotState) (k : MKind) :
    (logState now m s k).handled_media_groups = s.handled_media_groups := by
  simp [logState]

@[simp] theorem batchState_targets (now : Nat) (m : Msg) (s : BotState) (g : String)
    (k : MKind) : (batchState now m s g k).message_targets = s.message_targets := by
  simp [batchState]

@[simp] theorem batchState_banned (now : Nat) (m : Msg) (s : BotState) (g : String)
    (k : MKind) : (batchState now m s g k).banned_users = s.banned_users := by
  simp [batchState]

@[simp] theorem batchState_last_admin (now : Nat) (m : Msg) (s : BotState)
    (g : String) (k : MKind) :
    (batchState now m s g k).last_admin_message = s.last_admin_message := by
  simp [batchState]

@[simp] theorem batchState_next (now : Nat) (m : Msg) (s : BotState) (g : String)
    (k : MKind) : (batchState now m s g k).nextMsgId = s.nextMsgId := by
  simp [batchState]

@[simp] theorem batchState_log (now : Nat) (m : Msg) (s : BotState) (g : String)
    (k : MKind) :
    (batchState now m s g k).user_message_log = s.user_message_log ++
      [⟨m.sender.id, now, k, (get_user_settings_upd s m.sender.id).1.anon⟩] := by
  simp [batchState]

@[simp] theorem batchState_handled (now : Nat) (m : Msg) (s : BotState) (g : String)
    (k : MKind) :
    (batchState now m s g k).handled_media_groups =
      sinsert g s.handled_media_groups := by
  simp [batchState]

/- Branch lemmas for the `handle_user_message` content branches. -/

theorem hum_text_coalesce (now : Nat) (u : TgUser) (anon : Bool) (t : String)
    (s : BotState) (info : LastRelay)
    (halo : alookup s.last_admin_message u.id = some info)
    (hle : now - info.time ≤ 60) (hban : u.id ∉ s.banned_users) :
    hum_text now u anon t s =
      ({s with
          last_admin_message :=
            aset s.last_admin_message u.id
              {info with time := now, text := info.text ++ coalesce_addendum t}},
       [if info.has_media then
          Action.editCaptionA info.chat_id info.message_id
            (info.text ++ coalesce_addendum t) (some (Kb.banK u.id))
        else
          Action.editTextA info.chat_id info.message_id
            (info.text ++ coalesce_addendum t) (some (Kb.banK u.id))]) := by
  unfold hum_text
  rw [halo]
  dsimp only
  rw [if_pos hle, if_neg hban]

theorem hum_text_to_new (now : Nat) (u : TgUser) (anon : Bool) (t : String)
    (s : BotState)
    (h : ∀ info, alookup s.last_admin_message u.id = some info →
      60 < now - info.time) :
    hum_text now u anon t s = hum_text_new now u anon t s := by
  unfold hum_text
  cases halo : alookup s.last_admin_message u.id with
  | none => rfl
  | some info =>
    dsimp only
    rw [if_neg (by have := h info halo; omega)]

theorem hum_text_new_eq (now : Nat) (u : TgUser) (anon : Bool) (t : String)
    (s : BotState) :
    hum_text_new now u anon t s =
      ({s with
          nextMsgId := s.nextMsgId + 1,
          last_admin_message :=
            aset s.last_admin_message u.id
              ⟨ADMIN_CHAT_ID, s.nextMsgId, text_new_body anon u t, now, false, anon⟩,
          message_targets :=
            aset s.message_targets (ADMIN_CHAT_ID, s.nextMsgId) u.id},
       [Action.sendMessageA ADMIN_CHAT_ID (text_new_body anon u t)
          (some (Kb.banK u.id))]) := rfl

theorem hum_photo_full_eq (now : Nat) (u : TgUser) (anon : Bool) (fid : String)
    (cap : Option String) (mg : Option String) (fst : Bool) (s : BotState)
    (h : ¬(mg.isSome = true ∧ fst = false)) :
    hum_photo now u anon fid cap mg fst s =
      ({s with
          nextMsgId := s.nextMsgId + 1,
          last_admin_message :=
            aset s.last_admin_message u.id
              ⟨ADMIN_CHAT_ID, s.nextMsgId, photo_caption_body anon u (cap.getD ""),
               now, true, anon⟩,
          message_targets :=
            aset s.message_targets (ADMIN_CHAT_ID, s.nextMsgId) u.id},
       [Action.sendPhotoA ADMIN_CHAT_ID fid
          (some (photo_caption_body anon u (cap.getD ""))) (some (Kb.banK u.id))]) := by
  unfold hum_photo
  rw [if_neg h]

theorem hum_photo_bare_eq (now : Nat) (u : TgUser) (anon : Bool) (fid : String)
    (cap : Option String) (mg : Option String) (fst : Bool) (s : BotState)
    (h : mg.isSome = true ∧ fst = false) :
    hum_photo now u anon fid cap mg fst s =
      (s, [Action.sendPhotoA ADMIN_CHAT_ID fid
            (if cap.getD "" = "" then none else some (cap.getD "")) none]) := by
  unfold hum_photo
  rw [if_pos h]

theorem hum_video_full_eq (now : Nat) (u : TgUser) (anon : Bool) (fid : String)
    (cap : Option String) (mg : Option String) (fst : Bool) (s : BotState)
    (h : ¬(mg.isSome = true ∧ fst = false)) :
    hum_video now u anon fid cap mg fst s =
      ({s with
          nextMsgId := s.nextMsgId + 1,
          last_admin_message :=
            aset s.last_admin_message u.id
              ⟨ADMIN_CHAT_ID, s.nextMsgId, video_caption_body anon u (cap.getD ""),
               now, true, anon⟩,
          message_targets :=
            aset s.message_targets (ADMIN_CHAT_ID, s.nextMsgId) u.id},
       [Action.sendVideoA ADMIN_CHAT_ID fid
          (some (video_caption_body anon u (cap.getD ""))) (some (Kb.banK u.id))]) := by
  unfold hum_video
  rw [if_neg h]

theorem hum_video_bare_eq (now : Nat) (u : TgUser) (anon : Bool) (fid : String)
    (cap : Option String) (mg : Option String) (fst : Bool) (s : BotState)
    (h : mg.isSome = true ∧ fst = false) :
    hum_video now u anon fid cap mg fst s =
      (s, [Action.sendVideoA ADMIN_CHAT_ID fid
            (if cap.getD "" = "" then none else some (cap.getD "")) none]) := by
  unfold hum_video
  rw [if_pos h]

/- Reduction lemmas for `handle_user_message` under the relay-path
hypotheses. -/

theorem hum_blocked_run (now : Nat) (m : Msg) (s : BotState)
    (hb : m.sender.id ∈ s.banned_users) (hsvc : notServiceContent m.content) :
    handle_user_message now m s =
      ((get_user_settings_upd s m.sender.id).2,
       [Action.answerUser m.sender.id
          (build_blocked_text (get_user_settings_upd s m.sender.id).1.lang) none]) := by
  have h1 : ¬(isSlashText m.content = true) := by
    rcases hm : m.content with t | ⟨f, cp⟩ | ⟨f, cp⟩ | _ | _
    · simp only [isSlashText]
      rw [hsvc.2 t hm]
      simp
    all_goals simp [isSlashText]
  unfold handle_user_message
  dsimp only
  rw [if_neg h1, if_neg hsvc.1, if_pos (by rw [gus_banned]; exact hb)]

theorem hum_text_reduce (now : Nat) (m : Msg) (s : BotState) (t : String)
    (hc : m.content = MsgContent.text t) (hslash : strStarts t "/" = false)
    (hmg : m.mediaGroupId = none) (hban : m.sender.id ∉ s.banned_users) :
    handle_user_message now m s =
      ((hum_text now m.sender (get_user_settings_upd s m.sender.id).1.anon t
          (logState now m s MKind.textK)).1,
       Action.answerUser m.sender.id
           (build_thanks_text (get_user_settings_upd s m.sender.id).1.lang) none ::
         (hum_text now m.sender (get_user_settings_upd s m.sender.id).1.anon t
           (logState now m s MKind.textK)).2) := by
  have h1 : ¬(isSlashText m.content = true) := by
    rw [hc]
    simp only [isSlashText]
    rw [hslash]
    simp
  have h2 : ¬(m.content = MsgContent.pinned) := by
    rw [hc]
    simp
  have h4 : ¬(m.content = MsgContent.unsupported) := by
    rw [hc]
    simp
  unfold handle_user_message
  dsimp only
  rw [if_neg h1, if_neg h2, if_neg (by rw [gus_banned]; exact hban)]
  rw [hmg]
  simp only [album_mark]
  rw [if_neg h4]
  simp only [Option.isNone_none, Bool.false_eq_true, eq_self_iff_true, true_or,
    or_false, if_true]
  rw [hc]
  dsimp only [kindOf]
  rw [gus_log]
  unfold logState
  simp only [List.singleton_append]

theorem hum_photo_none_reduce (now : Nat) (m : Msg) (s : BotState) (fid : String)
    (cap : Option String) (hc : m.content = MsgContent.photo fid cap)
    (hmg : m.mediaGroupId = none) (hban : m.sender.id ∉ s.banned_users) :
    handle_user_message now m s =
      ((hum_photo now m.sender (get_user_settings_upd s m.sender.id).1.anon fid cap
          none false (logState now m s MKind.photoK)).1,
       Action.answerUser m.sender.id
           (build_thanks_text (get_user_settings_upd s m.sender.id).1.lang) none ::
         (hum_photo now m.sender (get_user_settings_upd s m.sender.id).1.anon fid cap
           none false (logState now m s MKind.photoK)).2) := by
  have h1 : ¬(isSlashText m.content = true) := by
    rw [hc]
    simp [isSlashText]
  have h2 : ¬(m.content = MsgContent.pinned) := by
    rw [hc]
    simp
  have h4 : ¬(m.content = MsgContent.unsupported) := by
    rw [hc]
    simp
  unfold handle_user_message
  dsimp only
  rw [if_neg h1, if_neg h2, if_neg (by rw [gus_banned]; exact hban)]
  rw [hmg]
  simp only [album_mark]
  rw [if_neg h4]
  simp only [Option.isNone_none, Bool.false_eq_true, eq_self_iff_true, true_or,
    or_false, if_true]
  rw [hc]
  dsimp only [kindOf]
  rw [gus_log]
  unfold logState
  simp only [List.singleton_append]

theorem hum_video_none_reduce (now : Nat) (m : Msg) (s : BotState) (fid : String)
    (cap : Option String) (hc : m.content = MsgContent.video fid cap)
    (hmg : m.mediaGroupId = none) (hban : m.sender.id ∉ s.banned_users) :
    handle_user_message now m s =
      ((hum_video now m.sender (get_user_settings_upd s m.sender.id).1.anon fid cap
          none false (logState now m s MKind.videoK)).1,
       Action.answerUser m.sender.id
           (build_thanks_text (get_user_settings_upd s m.sender.id).1.lang) none ::
         (hum_video now m.sender (get_user_settings_upd s m.sender.id).1.anon fid cap
           none false (logState now m s MKind.videoK)).2) := by
  have h1 : ¬(isSlashText m.content = true) := by
    rw [hc]
    simp [isSlashText]
  have h2 : ¬(m.content = MsgContent.pinned) := by
    rw [hc]
    simp
  have h4 : ¬(m.content = MsgContent.unsupported) := by
    rw [hc]
    simp
  unfold handle_user_message
  dsimp only
  rw [if_neg h1, if_neg h2, if_neg (by rw [gus_banned]; exact hban)]
  rw [hmg]
  simp only [album_mark]
  rw [if_neg h4]
  simp only [Option.isNone_none, Bool.false_eq_true, eq_self_iff_true, true_or,
    or_false, if_true]
  rw [hc]
  dsimp only [kindOf]
  rw [gus_log]
  unfold logState
  simp only [List.singleton_append]

theorem hum_photo_first_reduce (now : Nat) (m : Msg) (s : BotState) (fid : String)
    (cap : Option String) (g : String) (hc : m.content = MsgContent.photo fid cap)
    (hmg : m.mediaGroupId = some g) (hgf : g ∉ s.handled_media_groups)
    (hban : m.sender.id ∉ s.banned_users) :
    handle_user_message now m s =
      ((hum_photo now m.sender (get_user_settings_upd s m.sender.id).1.anon fid cap
          (some g) true (batchState now m s g MKind.photoK)).1,
       Action.answerUser m.sender.id
           (build_thanks_text (get_user_settings_upd s m.sender.id).1.lang) none ::
         (hum_photo now m.sender (get_user_settings_upd s m.sender.id).1.anon fid cap
           (some g) true (batchState now m s g MKind.photoK)).2) := by
  have h1 : ¬(isSlashText m.content = true) := by
    rw [hc]
    simp [isSlashText]
  have h2 : ¬(m.content = MsgContent.pinned) := by
    rw [hc]
    simp
  have h4 : ¬(m.content = MsgContent.unsupported) := by
    rw [hc]
    simp
  unfold handle_user_message
  dsimp only
  rw [if_neg h1, if_neg h2, if_neg (by rw [gus_banned]; exact hban)]
  rw [hmg]
  simp only [album_mark, gus_handled]
  rw [if_neg hgf]
  dsimp only
  rw [if_neg h4]
  have hcond : ((some g : Option String).isNone = true ∨ true = true) := Or.inr rfl
  rw [if_pos hcond, if_pos hcond]
  rw [hc]
  dsimp only [kindOf]
  rw [gus_log]
  unfold batchState
  simp only [List.singleton_append]

theorem hum_video_first_reduce (now : Nat) (m : Msg) (s : BotState) (fid : String)
    (cap : Option String) (g : String) (hc : m.content = MsgContent.video fid cap)
    (hmg : m.mediaGroupId = some g) (hgf : g ∉ s.handled_media_groups)
    (hban : m.sender.id ∉ s.banned_users) :
    handle_user_message now m s =
      ((hum_video now m.sender (get_user_settings_upd s m.sender.id).1.anon fid cap
          (some g) true (batchState now m s g MKind.videoK)).1,
       Action.answerUser m.sender.id
           (build_thanks_text (get_user_settings_upd s m.sender.id).1.lang) none ::
         (hum_video now m.sender (get_user_settings_upd s m.sender.id).1.anon fid cap
           (some g) true (batchState now m s g MKind.videoK)).2) := by
  have h1 : ¬(isSlashText m.content = true) := by
    rw [hc]
    simp [isSlashText]
  have h2 : ¬(m.content = MsgContent.pinned) := by
    rw [hc]
    simp
  have h4 : ¬(m.content = MsgContent.unsupported) := by
    rw [hc]
    simp
  unfold handle_user_message
  dsimp only
  rw [if_neg h1, if_neg h2, if_neg (by rw [gus_banned]; exact hban)]
  rw [hmg]
  simp only [album_mark, gus_handled]
  rw [if_neg hgf]
  dsimp only
  rw [if_neg h4]
  have hcond : ((some g : Option String).isNone = true ∨ true = true) := Or.inr rfl
  rw [if_pos hcond, if_pos hcond]
  rw [hc]
  dsimp only [kindOf]
  rw [gus_log]
  unfold batchState
  simp only [List.singleton_append]

theorem hum_photo_next_reduce (now : Nat) (m : Msg) (s : BotState) (fid : String)
    (cap : Option String) (g : String) (hc : m.content = MsgContent.photo fid cap)
    (hmg : m.mediaGroupId = some g) (hgn : g ∈ s.handled_media_groups)
    (hban : m.sender.id ∉ s.banned_users) :
    handle_user_message now m s =
      hum_photo now m.sender (get_user_settings_upd s m.sender.id).1.anon fid cap
        (some g) false (get_user_settings_upd s m.sender.id).2 := by
  have h1 : ¬(isSlashText m.content = true) := by
    rw [hc]
    simp [isSlashText]
  have h2 : ¬(m.content = MsgContent.pinned) := by
    rw [hc]
    simp
  have h4 : ¬(m.content = MsgContent.unsupported) := by
    rw [hc]
    simp
  have hcond : ¬((some g : Option String).isNone = true ∨ false = true) := by
    simp
  unfold handle_user_message
  dsimp only
  rw [if_neg h1, if_neg h2, if_neg (by rw [gus_banned]; exact hban)]
  rw [hmg]
  simp only [album_mark, gus_handled]
  rw [if_pos hgn]
  dsimp only
  rw [if_neg h4]
  rw [if_neg hcond, if_neg hcond]
  rw [hc]
  dsimp only
  simp only [List.nil_append]

theorem hum_video_next_reduce (now : Nat) (m : Msg) (s : BotState) (fid : String)
    (cap : Option String) (g : String) (hc : m.content = MsgContent.video fid cap)
    (hmg : m.mediaGroupId = some g) (hgn : g ∈ s.handled_media_groups)
    (hban : m.sender.id ∉ s.banned_users) :
    handle_user_message now m s =
      hum_video now m.sender (get_user_settings_upd s m.sender.id).1.anon fid cap
        (some g) false (get_user_settings_upd s m.sender.id).2 := by
  have h1 : ¬(isSlashText m.content = true) := by
    rw [hc]
    simp [isSlashText]
  have h2 : ¬(m.content = MsgContent.pinned) := by
    rw [hc]
    simp
  have h4 : ¬(m.content = MsgContent.unsupported) := by
    rw [hc]
    simp
  have hcond : ¬((some g : Option String).isNone = true ∨ false = true) := by
    simp
  unfold handle_user_message
  dsimp only
  rw [if_neg h1, if_neg h2, if_neg (by rw [gus_banned]; exact hban)]
  rw [hmg]
  simp only [album_mark, gus_handled]
  rw [if_pos hgn]
  dsimp only
  rw [if_neg h4]
  rw [if_neg hcond, if_neg hcond]
  rw [hc]
  dsimp only
  simp only [List.nil_append]

/- Branch lemmas for `handle_admin_reply`. -/

theorem admin_reply_unbound (m : Msg) (rid : Nat) (s : BotState)
    (h : alookup s.message_targets (m.chatId, rid) = none) :
    handle_admin_reply m rid s = (s, []) := by
  unfold handle_admin_reply
  rw [h]

theorem admin_reply_zero (m : Msg) (rid : Nat) (s : BotState)
    (h : alookup s.message_targets (m.chatId, rid) = some 0) :
    handle_admin_reply m rid s = (s, []) := by
  unfold handle_admin_reply
  rw [h]
  rfl

theorem admin_reply_banned (m : Msg) (rid : Nat) (s : BotState) (u : Int)
    (h : alookup s.message_targets (m.chatId, rid) = some u) (h0 : u ≠ 0)
    (hb : u ∈ s.banned_users) :
    handle_admin_reply m rid s =
      ((get_user_settings_upd s u).2,
       [Action.replyAdminA "Пользователь уже заблокирован, ответ не отправлен." none]) := by
  unfold handle_admin_reply
  rw [h]
  dsimp only
  rw [if_neg h0, if_pos (by rw [gus_banned]; exact hb)]

theorem admin_reply_delivers (m : Msg) (rid : Nat) (s : BotState) (u : Int)
    (h : alookup s.message_targets (m.chatId, rid) = some u) (h0 : u ≠ 0)
    (hb : u ∉ s.banned_users) :
    handle_admin_reply m rid s =
      ((get_user_settings_upd s u).2,
       [reply_forward_act (build_answer_header (get_user_settings_upd s u).1.lang) u
          m.content,
        Action.replyAdminA "✅ Ответ отправлен пользователю." none]) := by
  unfold handle_admin_reply
  rw [h]
  dsimp only
  rw [if_neg h0, if_neg (by rw [gus_banned]; exact hb)]

/- Frame lemmas: which stores each helper leaves untouched. -/

theorem sameCore_refl (s : BotState) : SameCore s s := ⟨rfl, rfl, rfl⟩

theorem sameCore_trans {s₁ s₂ s₃ : BotState} (h₁ : SameCore s₁ s₂)
    (h₂ : SameCore s₂ s₃) : SameCore s₁ s₃ :=
  ⟨h₁.1.trans h₂.1, h₁.2.1.trans h₂.2.1, h₁.2.2.trans h₂.2.2⟩

theorem sameCore_gus (s : BotState) (uid : Int) :
    SameCore (get_user_settings_upd s uid).2 s := by
  unfold get_user_settings_upd
  split <;> exact ⟨rfl, rfl, rfl⟩

theorem sameCore_statusSend (uid : Int) (st : Settings) (text : String)
    (s : BotState) : SameCore (statusSend uid st text s).1 s :=
  ⟨rfl, rfl, rfl⟩

theorem sameCore_ensure (uid : Int) (s : BotState) :
    SameCore (ensure_status_message uid s).1 s := by
  unfold ensure_status_message
  dsimp only
  refine sameCore_trans ?_ (sameCore_gus s uid)
  split
  · split
    · exact sameCore_refl _
    · exact sameCore_statusSend _ _ _ _
  · exact sameCore_statusSend _ _ _ _

theorem sameCore_album (mg : Option String) (s : BotState) :
    SameCore (album_mark mg s).2 s := by
  unfold album_mark
  split
  · split <;> exact ⟨rfl, rfl, rfl⟩
  · exact ⟨rfl, rfl, rfl⟩

theorem sameCore_hum_text_new (now : Nat) (u : TgUser) (anon : Bool) (t : String)
    (s : BotState) : SameCore (hum_text_new now u anon t s).1 s :=
  ⟨rfl, rfl, rfl⟩

theorem sameCore_hum_text (now : Nat) (u : TgUser) (anon : Bool) (t : String)
    (s : BotState) : SameCore (hum_text now u anon t s).1 s := by
  unfold hum_text
  split
  · split
    · exact ⟨rfl, rfl, rfl⟩
    · exact sameCore_hum_text_new ..
  · exact sameCore_hum_text_new ..

theorem sameCore_hum_photo (now : Nat) (u : TgUser) (anon : Bool) (fid : String)
    (cap : Option String) (mg : Option String) (fst : Bool) (s : BotState) :
    SameCore (hum_photo now u anon fid cap mg fst s).1 s := by
  unfold hum_photo
  split <;> exact ⟨rfl, rfl, rfl⟩

theorem sameCore_hum_video (now : Nat) (u : TgUser) (anon : Bool) (fid : String)
    (cap : Option String) (mg : Option String) (fst : Bool) (s : BotState) :
    SameCore (hum_video now u anon fid cap mg fst s).1 s := by
  unfold hum_video
  split <;> exact ⟨rfl, rfl, rfl⟩

theorem sameCore_hum (now : Nat) (m : Msg) (s : BotState) :
    SameCore (handle_user_message now m s).1 s := by
  unfold handle_user_message
  dsimp only
  split
  · exact sameCore_gus ..
  split
  · exact sameCore_gus ..
  split
  · exact sameCore_gus ..
  split
  · exact sameCore_trans (sameCore_album ..) (sameCore_gus ..)
  have hbase :
      SameCore (album_mark m.mediaGroupId (get_user_settings_upd s m.sender.id).2).2 s :=
    sameCore_trans (sameCore_album ..) (sameCore_gus ..)
  split <;>
    first
    | (refine sameCore_trans (sameCore_hum_text ..) (sameCore_trans ?_ hbase)
       split <;> exact ⟨rfl, rfl, rfl⟩)
    | (refine sameCore_trans (sameCore_hum_photo ..) (sameCore_trans ?_ hbase)
       split <;> exact ⟨rfl, rfl, rfl⟩)
    | (refine sameCore_trans (sameCore_hum_video ..) (sameCore_trans ?_ hbase)
       split <;> exact ⟨rfl, rfl, rfl⟩)
    | (refine sameCore_trans ?_ hbase
       split <;> exact ⟨rfl, rfl, rfl⟩)

theorem sameCore_admin_reply (m : Msg) (rid : Nat) (s : BotState) :
    SameCore (handle_admin_reply m rid s).1 s := by
  unfold handle_admin_reply
  dsimp only
  split
  · exact sameCore_refl _
  split
  · exact sameCore_refl _
  split
  · exact sameCore_gus ..
  · exact sameCore_gus ..

theorem sameCore_cmd_start (m : Msg) (s : BotState) :
    SameCore (cmd_start m s).1 s := by
  unfold cmd_start
  dsimp only
  exact sameCore_trans (sameCore_ensure ..) (sameCore_gus ..)

theorem sameCore_cb_toggle_anon (c : Cb) (s : BotState) :
    SameCore (cb_toggle_anon c s).1 s := by
  unfold cb_toggle_anon
  dsimp only
  exact sameCore_trans (sameCore_ensure ..)
    (sameCore_trans ⟨rfl, rfl, rfl⟩ (sameCore_gus ..))

theorem sameCore_cb_set_lang (c : Cb) (s : BotState) :
    SameCore (cb_set_lang c s).1 s := by
  unfold cb_set_lang
  dsimp only
  split
  · exact sameCore_trans (sameCore_ensure ..)
      (sameCore_trans ⟨rfl, rfl, rfl⟩ (sameCore_gus ..))
  · exact sameCore_gus ..

theorem sameCore_cmd_anon (m : Msg) (s : BotState) :
    SameCore (cmd_anon m s).1 s := by
  unfold cmd_anon
  dsimp only
  split
  · exact sameCore_gus ..
  · exact sameCore_trans (sameCore_ensure ..)
      (sameCore_trans ⟨rfl, rfl, rfl⟩ (sameCore_gus ..))
  · split
    · exact sameCore_trans (sameCore_ensure ..)
        (sameCore_trans ⟨rfl, rfl, rfl⟩ (sameCore_gus ..))
    split
    · exact sameCore_trans (sameCore_ensure ..)
        (sameCore_trans ⟨rfl, rfl, rfl⟩ (sameCore_gus ..))
    · exact sameCore_gus ..

theorem ban_button_fst (c : Cb) (s : BotState) : (handle_ban_button c s).1 = s := by
  unfold handle_ban_button
  split <;> rfl

theorem ban_cancel_fst (c : Cb) (s : BotState) : (handle_ban_cancel c s).1 = s := by
  unfold handle_ban_cancel
  split <;> rfl

theorem unban_button_fst (c : Cb) (s : BotState) :
    (handle_unban_button c s).1 = s := by
  unfold handle_unban_button
  split <;> rfl

theorem unban_cancel_fst (c : Cb) (s : BotState) :
    (handle_unban_cancel c s).1 = s := by
  unfold handle_unban_cancel
  split <;> rfl

theorem cmd_bans_fst (s : BotState) : (cmd_bans s).1 = s := by
  unfold cmd_bans
  split <;> rfl

theorem cmd_stats_fst (s : BotState) : (cmd_stats s).1 = s := rfl

theorem stats_cb_fst (now : Nat) (c : Cb) (s : BotState) :
    (handle_stats_callback now c s).1 = s := by
  unfold handle_stats_callback
  dsimp only
  split <;> rfl

theorem ban_confirm_processed (env : Int → Option (String × Option String))
    (now : Nat) (c : Cb) (s : BotState) :
    (handle_ban_confirm env now c s).1.processed_updates = s.processed_updates := by
  unfold handle_ban_confirm
  split <;> rfl

theorem unban_confirm_processed (c : Cb) (s : BotState) :
    (handle_unban_confirm c s).1.processed_updates = s.processed_updates := by
  unfold handle_unban_confirm
  split <;> rfl

theorem ban_confirm_none (env : Int → Option (String × Option String)) (now : Nat)
    (c : Cb) (s : BotState) (h : parse_payload_int c.data = none) :
    handle_ban_confirm env now c s =
      (s, [Action.cbAnswerA "Ошибка: не могу прочитать ID пользователя." true]) := by
  unfold handle_ban_confirm
  rw [h]

theorem unban_confirm_none (c : Cb) (s : BotState)
    (h : parse_payload_int c.data = none) :
    handle_unban_confirm c s =
      (s, [Action.cbAnswerA "Ошибка: не могу прочитать ID пользователя." true]) := by
  unfold handle_unban_confirm
  rw [h]

theorem ban_confirm_mod (env : Int → Option (String × Option String)) (now : Nat)
    (c : Cb) (s : BotState) (uid : Int) (h : parse_payload_int c.data = some uid) :
    (handle_ban_confirm env now c s).1.banned_users = sinsert uid s.banned_users ∧
    ∃ ent : BanEntry,
      (handle_ban_confirm env now c s).1.ban_log = aset s.ban_log uid ent := by
  unfold handle_ban_confirm
  rw [h]
  exact ⟨rfl, _, rfl⟩

theorem unban_confirm_mod (c : Cb) (s : BotState) (uid : Int)
    (h : parse_payload_int c.data = some uid) :
    (handle_unban_confirm c s).1.banned_users = sremove uid s.banned_users ∧
    (handle_unban_confirm c s).1.ban_log = aerase s.ban_log uid := by
  unfold handle_unban_confirm
  rw [h]
  exact ⟨rfl, rfl⟩

/- Invariant-transfer lemmas. -/

theorem banInv_sameCore {s' s : BotState} (h : SameCore s' s) (hi : banInv s) :
    banInv s' := by
  intro u
  rw [h.2.2, h.2.1]
  exact hi u

theorem banInv_ban_confirm (env : Int → Option (String × Option String))
    (now : Nat) (c : Cb) (s : BotState) (hi : banInv s) :
    banInv (handle_ban_confirm env now c s).1 := by
  cases h : parse_payload_int c.data with
  | none => rw [ban_confirm_none env now c s h]; exact hi
  | some uid =>
    obtain ⟨hb, ent, hl⟩ := ban_confirm_mod env now c s uid h
    intro u
    rw [hl, hb, mem_akeys_aset, mem_sinsert]
    exact or_congr Iff.rfl (hi u)

theorem banInv_unban_confirm (c : Cb) (s : BotState) (hi : banInv s) :
    banInv (handle_unban_confirm c s).1 := by
  cases h : parse_payload_int c.data with
  | none => rw [unban_confirm_none c s h]; exact hi
  | some uid =>
    obtain ⟨hb, hl⟩ := unban_confirm_mod c s uid h
    intro u
    rw [hl, hb, mem_akeys_aerase, mem_sremove]
    exact and_congr (hi u) Iff.rfl

/- Dispatcher-level frame lemmas. -/

theorem dispatch_processed (env : Int → Option (String × Option String))
    (now : Nat) (e : Event) (s : BotState) :
    (dispatch env now e s).1.processed_updates = s.processed_updates := by
  cases e with
  | message m =>
    simp only [dispatch]
    split
    · exact (sameCore_cmd_start ..).1
    split
    · exact (sameCore_cmd_anon ..).1
    split
    · exact (sameCore_hum ..).1
    split
    · exact (sameCore_admin_reply ..).1
    split
    · rw [cmd_bans_fst]
    split
    · rw [cmd_stats_fst]
    · rfl
  | callbackQ c =>
    simp only [dispatch]
    split
    · exact (sameCore_cb_toggle_anon ..).1
    split
    · exact (sameCore_cb_set_lang ..).1
    split
    · rw [ban_button_fst]
    split
    · exact ban_confirm_processed ..
    split
    · rw [ban_cancel_fst]
    split
    · rw [unban_button_fst]
    split
    · exact unban_confirm_processed ..
    split
    · rw [unban_cancel_fst]
    split
    · rw [stats_cb_fst]
    · rfl

theorem dispatch_banInv (env : Int → Option (String × Option String)) (now : Nat)
    (e : Event) (s : BotState) (hi : banInv s) :
    banInv (dispatch env now e s).1 := by
  cases e with
  | message m =>
    simp only [dispatch]
    split
    · exact banInv_sameCore (sameCore_cmd_start ..) hi
    split
    · exact banInv_sameCore (sameCore_cmd_anon ..) hi
    split
    · exact banInv_sameCore (sameCore_hum ..) hi
    split
    · exact banInv_sameCore (sameCore_admin_reply ..) hi
    split
    · rw [cmd_bans_fst]; exact hi
    split
    · rw [cmd_stats_fst]; exact hi
    · exact hi
  | callbackQ c =>
    simp only [dispatch]
    split
    · exact banInv_sameCore (sameCore_cb_toggle_anon ..) hi
    split
    · exact banInv_sameCore (sameCore_cb_set_lang ..) hi
    split
    · rw [ban_button_fst]; exact hi
    split
    · exact banInv_ban_confirm env now c s hi
    split
    · rw [ban_cancel_fst]; exact hi
    split
    · rw [unban_button_fst]; exact hi
    split
    · exact banInv_unban_confirm c s hi
    split
    · rw [unban_cancel_fst]; exact hi
    split
    · rw [stats_cb_fst]; exact hi
    · exact hi

theorem dispatch_nonMod (env : Int → Option (String × Option String)) (now : Nat)
    (e : Event) (s : BotState) (he : nonModEvent e) :
    (dispatch env now e s).1.banned_users = s.banned_users ∧
    (dispatch env now e s).1.ban_log = s.ban_log := by
  cases e with
  | message m =>
    simp only [dispatch]
    split
    · exact ⟨(sameCore_cmd_start ..).2.1, (sameCore_cmd_start ..).2.2⟩
    split
    · exact ⟨(sameCore_cmd_anon ..).2.1, (sameCore_cmd_anon ..).2.2⟩
    split
    · exact ⟨(sameCore_hum ..).2.1, (sameCore_hum ..).2.2⟩
    split
    · exact ⟨(sameCore_admin_reply ..).2.1, (sameCore_admin_reply ..).2.2⟩
    split
    · rw [cmd_bans_fst]; exact ⟨rfl, rfl⟩
    split
    · rw [cmd_stats_fst]; exact ⟨rfl, rfl⟩
    · exact ⟨rfl, rfl⟩
  | callbackQ c =>
    simp only [dispatch]
    split
    · exact ⟨(sameCore_cb_toggle_anon ..).2.1, (sameCore_cb_toggle_anon ..).2.2⟩
    split
    · exact ⟨(sameCore_cb_set_lang ..).2.1, (sameCore_cb_set_lang ..).2.2⟩
    split
    · rw [ban_button_fst]; exact ⟨rfl, rfl⟩
    split
    · next hcond => exact absurd ⟨hcond.1, Or.inl hcond.2⟩ he
    split
    · rw [ban_cancel_fst]; exact ⟨rfl, rfl⟩
    split
    · rw [unban_button_fst]; exact ⟨rfl, rfl⟩
    split
    · next hcond => exact absurd ⟨hcond.1, Or.inr hcond.2⟩ he
    split
    · rw [unban_cancel_fst]; exact ⟨rfl, rfl⟩
    split
    · rw [stats_cb_fst]; exact ⟨rfl, rfl⟩
    · exact ⟨rfl, rfl⟩

/- Claim theorems. -/

/-- Claim C2: routing an event id records it in the processed set; any
subsequent routing of the same id leaves the whole state unchanged and
issues no outbound action; a first routing of an unseen id records the id
and dispatches the event. -/
theorem routeEvent_idempotent (env : Int → Option (String × Option String))
    (now now2 updateId : Nat) (e : Event) (s : BotState) :
    updateId ∈ (routeEvent env now updateId e s).1.processed_updates ∧
    routeEvent env now2 updateId e (routeEvent env now updateId e s).1 =
      ((routeEvent env now updateId e s).1, []) ∧
    (updateId ∉ s.processed_updates →
      routeEvent env now updateId e s =
        dispatch env now e
          {s with processed_updates := sinsert updateId s.processed_updates}) := by
  have hmem : updateId ∈ (routeEvent env now updateId e s).1.processed_updates := by
    unfold routeEvent
    split
    · next h => exact h
    · rw [dispatch_processed]
      exact self_mem_sinsert ..
  refine ⟨hmem, ?_, ?_⟩
  · generalize hX : (routeEvent env now updateId e s).1 = X at hmem ⊢
    unfold routeEvent
    rw [if_pos hmem]
  · intro h
    unfold routeEvent
    rw [if_neg h]

/-- Witness for C2 at a concrete event and the empty initial state. -/
theorem routeEvent_idempotent_witness :
    5 ∈ (routeEvent env0 0 5 wIgnoredEvent initialState).1.processed_updates ∧
    routeEvent env0 1 5 wIgnoredEvent (routeEvent env0 0 5 wIgnoredEvent initialState).1 =
      ((routeEvent env0 0 5 wIgnoredEvent initialState).1, []) ∧
    routeEvent env0 0 5 wIgnoredEvent initialState =
      dispatch env0 0 wIgnoredEvent
        {initialState with processed_updates := sinsert 5 initialState.processed_updates} :=
  ⟨(routeEvent_idempotent env0 0 1 5 wIgnoredEvent initialState).1,
   (routeEvent_idempotent env0 0 1 5 wIgnoredEvent initialState).2.1,
   (routeEvent_idempotent env0 0 1 5 wIgnoredEvent initialState).2.2 (by decide)⟩

/-- Claim C7: an event is in the day/week/month filtered sequence iff its
age is at most 86400/604800/2592000 seconds, the all-time sequence keeps
every event, and the aggregates (total, distinct users, per-kind counts,
distinct anonymous senders) are computed over exactly the filtered
sequence. -/
theorem stats_window_correct (now : Nat) (log : List StatsEvent) (e : StatsEvent) :
    (e ∈ stats_filtered "day" now log ↔ e ∈ log ∧ now - e.timestamp ≤ 86400) ∧
    (e ∈ stats_filtered "week" now log ↔ e ∈ log ∧ now - e.timestamp ≤ 604800) ∧
    (e ∈ stats_filtered "month" now log ↔ e ∈ log ∧ now - e.timestamp ≤ 2592000) ∧
    stats_filtered "all" now log = log ∧
    (∀ p, stats_total p now log = (stats_filtered p now log).length) ∧
    (∀ p, stats_users p now log =
      ((stats_filtered p now log).map StatsEvent.user_id).toFinset.card) ∧
    (∀ p k, stats_kind_count k p now log =
      ((stats_filtered p now log).filter (fun x => decide (x.kind = k))).length) ∧
    (∀ p, stats_anon_users p now log =
      (((stats_filtered p now log).filter (fun x => x.is_anon)).map
        StatsEvent.user_id).toFinset.card) := by
  have hwin : ∀ w : Nat, 0 < w →
      (e ∈ log.filter (fun x => decide (now - w ≤ x.timestamp)) ↔
        e ∈ log ∧ now - e.timestamp ≤ w) := by
    intro w _
    rw [List.mem_filter]
    constructor
    · rintro ⟨h1, h2⟩
      rw [decide_eq_true_eq] at h2
      exact ⟨h1, by omega⟩
    · rintro ⟨h1, h2⟩
      refine ⟨h1, ?_⟩
      rw [decide_eq_true_eq]
      omega
  have hday : stats_cutoff "day" now = now - 86400 := by
    unfold stats_cutoff
    rw [if_pos rfl]
  have hweek : stats_cutoff "week" now = now - 604800 := by
    unfold stats_cutoff
    rw [if_neg (by decide), if_pos rfl]
  have hmonth : stats_cutoff "month" now = now - 2592000 := by
    unfold stats_cutoff
    rw [if_neg (by decide), if_neg (by decide), if_pos rfl]
  have hall : stats_cutoff "all" now = 0 := by
    unfold stats_cutoff
    rw [if_neg (by decide), if_neg (by decide), if_neg (by decide)]
  refine ⟨?_, ?_, ?_, ?_, fun _ => rfl, ?_, ?_, ?_⟩
  · rw [stats_filtered, hday]
    exact hwin 86400 (by omega)
  · rw [stats_filtered, hweek]
    exact hwin 604800 (by omega)
  · rw [stats_filtered, hmonth]
    exact hwin 2592000 (by omega)
  · rw [stats_filtered, hall]
    rw [List.filter_eq_self.mpr]
    intro a _
    rw [decide_eq_true_eq]
    exact Nat.zero_le _
  · intro p
    unfold stats_users
    rw [List.card_toFinset]
  · intro p k
    unfold stats_kind_count
    exact List.countP_eq_length_filter _ _
  · intro p
    unfold stats_anon_users
    rw [List.card_toFinset]

/-- Claim C9: a confirm-block or confirm-unblock activation whose payload
has no parseable integer user id only raises the error alert and mutates
nothing. -/
theorem bad_payload_no_mutation (env : Int → Option (String × Option String))
    (now : Nat) (c : Cb) (s : BotState) (h : parse_payload_int c.data = none) :
    handle_ban_confirm env now c s =
      (s, [Action.cbAnswerA "Ошибка: не могу прочитать ID пользователя." true]) ∧
    handle_unban_confirm c s =
      (s, [Action.cbAnswerA "Ошибка: не могу прочитать ID пользователя." true]) :=
  ⟨ban_confirm_none env now c s h, unban_confirm_none c s h⟩

/-- Witness for C9 at the concrete payload `banconfirm:abc`. -/
theorem bad_payload_no_mutation_witness :
    handle_ban_confirm env0 0 cexBadCb initialState =
      (initialState, [Action.cbAnswerA "Ошибка: не могу прочитать ID пользователя." true]) ∧
    handle_unban_confirm cexBadCb initialState =
      (initialState, [Action.cbAnswerA "Ошибка: не могу прочитать ID пользователя." true]) :=
  bad_payload_no_mutation env0 0 cexBadCb initialState (by decide)

/-- Claim C10: the ban audit log's key set always equals the blocked set —
it holds initially, it is preserved by routing any event, and no event
other than a confirm-block/confirm-unblock activation touches either
structure. -/
theorem ban_log_matches_banned :
    banInv initialState ∧
    (∀ env now updateId e s, banInv s → banInv (routeEvent env now updateId e s).1) ∧
    (∀ env now e s, nonModEvent e →
      (dispatch env now e s).1.banned_users = s.banned_users ∧
      (dispatch env now e s).1.ban_log = s.ban_log) := by
  refine ⟨?_, ?_, ?_⟩
  · intro u
    simp [initialState, akeys]
  · intro env now updateId e s hi
    unfold routeEvent
    split
    · exact hi
    · exact dispatch_banInv env now e _ hi
  · intro env now e s he
    exact dispatch_nonMod env now e s he

/-- Witness for C10: the invariant after routing a concrete event from the
initial state. -/
theorem ban_log_matches_banned_witness :
    banInv (routeEvent env0 0 5 wIgnoredEvent initialState).1 :=
  ban_log_matches_banned.2.1 env0 0 5 wIgnoredEvent initialState
    ban_log_matches_banned.1

/-- Claim C5 falsified as stated: in `cexBindState` notification 10 is bound
to user 0 yet the reply is silently ignored (Python `if not user_id` treats
the id 0 as unresolved), and notification 11 is bound to the blocked user 5
yet the reply is answered with a suppression notice instead of being
forwarded — in both cases the binding exists but nothing is delivered to the
bound user. -/
theorem reply_routing_counterexample :
    alookup cexBindState.message_targets (ADMIN_CHAT_ID, 10) = some 0 ∧
    handle_admin_reply wAdminReply 10 cexBindState = (cexBindState, []) ∧
    alookup cexBindState.message_targets (ADMIN_CHAT_ID, 11) = some 5 ∧
    (5 : Int) ∈ cexBindState.banned_users ∧
    (handle_admin_reply wAdminReply 11 cexBindState).2 =
      [Action.replyAdminA "Пользователь уже заблокирован, ответ не отправлен." none] := by
  refine ⟨?_, ?_, ?_, ?_, ?_⟩ <;> decide

/-- Claim C5 (amended): an admin reply whose replied-to pair is bound to a
nonzero, not currently blocked user `u` is forwarded to exactly `u` with
the responder header and acknowledged; a reply bound to no user (or to the
sentinel id 0, which Python truthiness treats as unbound) is silently
ignored with no state change. -/
theorem reply_routing_amended :
    (∀ m rid s, alookup s.message_targets (m.chatId, rid) = none →
      handle_admin_reply m rid s = (s, [])) ∧
    (∀ m rid s, alookup s.message_targets (m.chatId, rid) = some 0 →
      handle_admin_reply m rid s = (s, [])) ∧
    (∀ m rid s u, alookup s.message_targets (m.chatId, rid) = some u → u ≠ 0 →
      u ∉ s.banned_users →
      handle_admin_reply m rid s =
        ((get_user_settings_upd s u).2,
         [reply_forward_act (build_answer_header (get_user_settings_upd s u).1.lang)
            u m.content,
          Action.replyAdminA "✅ Ответ отправлен пользователю." none]) ∧
      sendChatOf
        (reply_forward_act (build_answer_header (get_user_settings_upd s u).1.lang)
          u m.content) = some u) := by
  refine ⟨admin_reply_unbound, admin_reply_zero, ?_⟩
  intro m rid s u h h0 hb
  refine ⟨admin_reply_delivers m rid s u h h0 hb, ?_⟩
  cases m.content <;> rfl

/-- Witness for C5 (amended) at a concrete binding to user 7. -/
theorem reply_routing_amended_witness :
    handle_admin_reply wAdminReply 11 wDeliverState =
      ((get_user_settings_upd wDeliverState 7).2,
       [reply_forward_act
          (build_answer_header (get_user_settings_upd wDeliverState 7).1.lang) 7
          wAdminReply.content,
        Action.replyAdminA "✅ Ответ отправлен пользователю." none]) ∧
    sendChatOf
      (reply_forward_act
        (build_answer_header (get_user_settings_upd wDeliverState 7).1.lang) 7
        wAdminReply.content) = some 7 :=
  reply_routing_amended.2.2 wAdminReply 11 wDeliverState 7 (by decide) (by decide)
    (by decide)

/- Helper lemmas for the slash-command claim. -/

theorem py_split_max1_ne_nil (t : String) (h : strStarts t "/anon" = true) :
    py_split_max1 t ≠ [] := by
  have hp : "/anon".data <+: t.data := List.isPrefixOf_iff_prefix.mp h
  obtain ⟨tail, htail⟩ := hp
  have hdata : t.data = '/' :: 'a' :: 'n' :: 'o' :: 'n' :: tail := by
    rw [← htail]
    rfl
  unfold py_split_max1
  rw [hdata]
  rw [List.dropWhile_cons]
  simp only [show ('/').isWhitespace = false from rfl, Bool.false_eq_true, if_false]
  split <;> simp

theorem cmd_anon_acts_nonempty (m : Msg) (s : BotState) (t : String)
    (hc : m.content = MsgContent.text t) (h : strStarts t "/anon" = true) :
    (cmd_anon m s).2 ≠ [] := by
  unfold cmd_anon
  dsimp only
  rw [hc]
  dsimp only
  split
  · next heq => exact absurd heq (py_split_max1_ne_nil t h)
  · simp
  · split
    · simp
    split
    · simp
    · simp

/-- Claim C8 falsified as stated: the private text `/anonx` is neither
`/start` nor `/anon`, yet it triggers the anonymity-command handler (the
dispatcher's filter is the anchored regexp `^/anon`, a prefix match); and
the ignored command `/foo` from a fresh user is not entirely without state
change — it lazily creates the sender's default settings record. -/
theorem slash_command_counterexample :
    strStarts "/anonx" "/" = true ∧ ("/anonx" : String) ≠ "/start" ∧
    ("/anonx" : String) ≠ "/anon" ∧
    (dispatch env0 0 (Event.message (wText "/anonx")) initialState).2 ≠ [] ∧
    strStarts "/foo" "/" = true ∧ ("/foo" : String) ≠ "/start" ∧
    ("/foo" : String) ≠ "/anon" ∧
    (dispatch env0 0 (Event.message (wText "/foo")) initialState).1 ≠ initialState := by
  refine ⟨?_, ?_, ?_, ?_, ?_, ?_, ?_, ?_⟩ <;> decide

/-- Claim C8 (amended): a private text beginning with `/` that is not
exactly `/start` and does not begin with `/anon` is ignored — no reply, no
relay, no statistics event, and no store mutation beyond lazily creating
the sender's default settings record; `/start` is routed to the greeting
handler, whose first action presents the greeting with the settings
keyboard; any text beginning with `/anon` (the anchored-regexp filter) is
routed to the anonymity-command handler, which always replies. -/
theorem slash_command_routing :
    (∀ env now m s t, m.chatPrivate = true → m.content = MsgContent.text t →
      strStarts t "/" = true → t ≠ "/start" → strStarts t "/anon" = false →
      dispatch env now (Event.message m) s =
        ((get_user_settings_upd s m.sender.id).2, [])) ∧
    (∀ env now m s, m.chatPrivate = true → m.content = MsgContent.text "/start" →
      dispatch env now (Event.message m) s = cmd_start m s ∧
      (∃ rest, (cmd_start m s).2 =
        Action.answerUser m.sender.id
          (build_start_text (get_user_settings_upd s m.sender.id).1.lang)
          (some (Kb.startK (get_user_settings_upd s m.sender.id).1.lang
            (get_user_settings_upd s m.sender.id).1.anon)) :: rest)) ∧
    (∀ env now m s t, m.chatPrivate = true → m.content = MsgContent.text t →
      strStarts t "/anon" = true →
      dispatch env now (Event.message m) s = cmd_anon m s ∧
      (cmd_anon m s).2 ≠ []) := by
  refine ⟨?_, ?_, ?_⟩
  · intro env now m s t hpriv hc hsl hstart hanon
    have hmt : msg_text m = some t := by
      unfold msg_text
      rw [hc]
    simp only [dispatch]
    rw [if_neg (by
      rintro ⟨_, hh⟩
      rw [hmt] at hh
      injection hh with hh'
      exact hstart hh')]
    rw [if_neg (by
      rintro ⟨_, hh⟩
      simp only [textHasPrefix, hmt, hanon, Bool.false_eq_true] at hh)]
    rw [if_pos hpriv]
    unfold handle_user_message
    dsimp only
    rw [show isSlashText m.content = true from by rw [hc]; exact hsl]
    rw [if_pos rfl]
  · intro env now m s hpriv hc
    simp only [dispatch]
    rw [if_pos ⟨hpriv, by unfold msg_text; rw [hc]⟩]
    refine ⟨rfl, ?_⟩
    unfold cmd_start
    dsimp only
    exact ⟨_, rfl⟩
  · intro env now m s t hpriv hc hpre
    have hmt : msg_text m = some t := by
      unfold msg_text
      rw [hc]
    have ht : t ≠ "/start" := by
      intro heq
      rw [heq] at hpre
      exact absurd hpre (by decide)
    simp only [dispatch]
    rw [if_neg (by
      rintro ⟨_, hh⟩
      rw [hmt] at hh
      injection hh with hh'
      exact ht hh')]
    rw [if_pos ⟨hpriv, by simp only [textHasPrefix, hmt, hpre]⟩]
    exact ⟨rfl, cmd_anon_acts_nonempty m s t hc hpre⟩

/-- Witness for C8 (amended) at the concrete ignored command `/help`. -/
theorem slash_command_routing_witness :
    dispatch env0 0 (Event.message (wText "/help")) initialState =
      ((get_user_settings_upd initialState 7).2, []) :=
  slash_command_routing.1 env0 0 (wText "/help") initialState "/help" rfl rfl
    (by decide) (by decide) (by decide)

/- Log-preservation and notice-free lemmas for the relay branches. -/

theorem hum_text_log (now : Nat) (u : TgUser) (anon : Bool) (t : String)
    (s : BotState) :
    (hum_text now u anon t s).1.user_message_log = s.user_message_log := by
  unfold hum_text hum_text_new
  split
  · split <;> rfl
  · rfl

theorem hum_photo_log (now : Nat) (u : TgUser) (anon : Bool) (fid : String)
    (cap : Option String) (mg : Option String) (fst : Bool) (s : BotState) :
    (hum_photo now u anon fid cap mg fst s).1.user_message_log =
      s.user_message_log := by
  unfold hum_photo
  split <;> rfl

theorem hum_video_log (now : Nat) (u : TgUser) (anon : Bool) (fid : String)
    (cap : Option String) (mg : Option String) (fst : Bool) (s : BotState) :
    (hum_video now u anon fid cap mg fst s).1.user_message_log =
      s.user_message_log := by
  unfold hum_video
  split <;> rfl

theorem isBlockedNotice_thanks (u v : Int) (lang : Lang) :
    isBlockedNotice u (Action.answerUser v (build_thanks_text lang) none) = false := by
  cases lang <;> simp [isBlockedNotice] <;> exact fun _ => ⟨by decide, by decide⟩

theorem hum_text_no_notice (v : Int) (now : Nat) (u : TgUser) (anon : Bool)
    (t : String) (s : BotState) :
    (hum_text now u anon t s).2.countP (isBlockedNotice v) = 0 := by
  unfold hum_text hum_text_new
  dsimp only
  repeat' split
  all_goals rfl

theorem hum_photo_no_notice (v : Int) (now : Nat) (u : TgUser) (anon : Bool)
    (fid : String) (cap : Option String) (mg : Option String) (fst : Bool)
    (s : BotState) :
    (hum_photo now u anon fid cap mg fst s).2.countP (isBlockedNotice v) = 0 := by
  unfold hum_photo
  split <;> rfl

theorem hum_video_no_notice (v : Int) (now : Nat) (u : TgUser) (anon : Bool)
    (fid : String) (cap : Option String) (mg : Option String) (fst : Bool)
    (s : BotState) :
    (hum_video now u anon fid cap mg fst s).2.countP (isBlockedNotice v) = 0 := by
  unfold hum_video
  split <;> rfl

/-- Claim C4: while a user is blocked, an inbound private message on the
relay path yields only the localized blocked notice with no store mutation
beyond the lazy settings record, and an administrator reply bound to them
yields only the suppression notice; confirm-unblock removes the user from
the blocked set, after which an inbound relayable message is relayed again
(one statistics event, no blocked notice) and administrator replies are
delivered to the user again. -/
theorem block_gates_delivery :
    (∀ now m s, m.sender.id ∈ s.banned_users → notServiceContent m.content →
      handle_user_message now m s =
        ((get_user_settings_upd s m.sender.id).2,
         [Action.answerUser m.sender.id
            (build_blocked_text (get_user_settings_upd s m.sender.id).1.lang)
            none])) ∧
    (∀ m rid s u, alookup s.message_targets (m.chatId, rid) = some u → u ≠ 0 →
      u ∈ s.banned_users →
      handle_admin_reply m rid s =
        ((get_user_settings_upd s u).2,
         [Action.replyAdminA "Пользователь уже заблокирован, ответ не отправлен."
            none])) ∧
    (∀ c s u, parse_payload_int c.data = some u →
      u ∉ (handle_unban_confirm c s).1.banned_users) ∧
    (∀ now m s, m.sender.id ∉ s.banned_users → relayableContent m.content →
      m.mediaGroupId = none →
      (handle_user_message now m s).1.user_message_log.length =
        s.user_message_log.length + 1 ∧
      (handle_user_message now m s).2.countP (isBlockedNotice m.sender.id) = 0) ∧
    (∀ m rid s u, alookup s.message_targets (m.chatId, rid) = some u → u ≠ 0 →
      u ∉ s.banned_users →
      ∃ a, (handle_admin_reply m rid s).2 =
        [a, Action.replyAdminA "✅ Ответ отправлен пользователю." none] ∧
        sendChatOf a = some u) := by
  refine ⟨?_, ?_, ?_, ?_, ?_⟩
  · intro now m s hb hsvc
    exact hum_blocked_run now m s hb hsvc
  · intro m rid s u h h0 hb
    exact admin_reply_banned m rid s u h h0 hb
  · intro c s u h
    rw [(unban_confirm_mod c s u h).1]
    exact not_mem_sremove_self u _
  · intro now m s hb hrc hmg
    rcases hrc with ⟨t, hc, hslash⟩ | ⟨f, cp, hc⟩ | ⟨f, cp, hc⟩
    · simp only [hum_text_reduce now m s t hc hslash hmg hb]
      constructor
      · dsimp only
        rw [hum_text_log, logState_log]
        simp
      · simp [List.countP_cons, hum_text_no_notice, isBlockedNotice_thanks]
    · simp only [hum_photo_none_reduce now m s f cp hc hmg hb]
      constructor
      · dsimp only
        rw [hum_photo_log, logState_log]
        simp
      · simp [List.countP_cons, hum_photo_no_notice, isBlockedNotice_thanks]
    · simp only [hum_video_none_reduce now m s f cp hc hmg hb]
      constructor
      · dsimp only
        rw [hum_video_log, logState_log]
        simp
      · simp [List.countP_cons, hum_video_no_notice, isBlockedNotice_thanks]
  · intro m rid s u h h0 hb
    rw [admin_reply_delivers m rid s u h h0 hb]
    exact ⟨_, rfl, by cases m.content <;> rfl⟩

/-- Witness for C4: blocked user 7 gets only the blocked notice, and after
confirm-unblock user 7 is no longer blocked. -/
theorem block_gates_delivery_witness :
    handle_user_message 0 (wText "hello") wBanState =
      ((get_user_settings_upd wBanState 7).2,
       [Action.answerUser 7
          (build_blocked_text (get_user_settings_upd wBanState 7).1.lang) none]) ∧
    7 ∉ (handle_unban_confirm wUnbanCb wBanState).1.banned_users :=
  ⟨block_gates_delivery.1 0 (wText "hello") wBanState (by decide)
     ⟨by decide, fun t ht => by
        have h2 : MsgContent.text "hello" = MsgContent.text t := ht
        injection h2 with h3
        rw [← h3]
        decide⟩,
   block_gates_delivery.2.2.1 wUnbanCb wBanState 7 (by decide)⟩

/-- Claim C1: for a new inbound private text message at time `now`, if a
LastRelay record for the sender exists and is at most 60 seconds old, the
existing relayed notification is edited (caption when it carries non-text
media, text otherwise) with an appended addendum block — no new notification
and no new binding — and afterwards the record's time is `now` and its text
is the old text plus the addendum; if no record exists or every record is
older than 60 seconds, a fresh independent notification is sent and a fresh
reply binding is recorded. -/
theorem text_coalescing (now : Nat) (m : Msg) (s : BotState) (t : String)
    (hc : m.content = MsgContent.text t) (hslash : strStarts t "/" = false)
    (hmg : m.mediaGroupId = none) (hban : m.sender.id ∉ s.banned_users) :
    (∀ info, alookup s.last_admin_message m.sender.id = some info →
      now - info.time ≤ 60 →
      (handle_user_message now m s).1.last_admin_message =
        aset s.last_admin_message m.sender.id
          {info with time := now, text := info.text ++ coalesce_addendum t} ∧
      (handle_user_message now m s).1.message_targets = s.message_targets ∧
      (handle_user_message now m s).2 =
        [Action.answerUser m.sender.id
           (build_thanks_text (get_user_settings_upd s m.sender.id).1.lang) none,
         if info.has_media then
           Action.editCaptionA info.chat_id info.message_id
             (info.text ++ coalesce_addendum t) (some (Kb.banK m.sender.id))
         else
           Action.editTextA info.chat_id info.message_id
             (info.text ++ coalesce_addendum t) (some (Kb.banK m.sender.id))]) ∧
    ((∀ info, alookup s.last_admin_message m.sender.id = some info →
        60 < now - info.time) →
      (handle_user_message now m s).1.message_targets =
        aset s.message_targets (ADMIN_CHAT_ID, s.nextMsgId) m.sender.id ∧
      (handle_user_message now m s).1.last_admin_message =
        aset s.last_admin_message m.sender.id
          ⟨ADMIN_CHAT_ID, s.nextMsgId,
           text_new_body (get_user_settings_upd s m.sender.id).1.anon m.sender t,
           now, false, (get_user_settings_upd s m.sender.id).1.anon⟩ ∧
      (handle_user_message now m s).2 =
        [Action.answerUser m.sender.id
           (build_thanks_text (get_user_settings_upd s m.sender.id).1.lang) none,
         Action.sendMessageA ADMIN_CHAT_ID
           (text_new_body (get_user_settings_upd s m.sender.id).1.anon m.sender t)
           (some (Kb.banK m.sender.id))]) := by
  simp only [hum_text_reduce now m s t hc hslash hmg hban]
  constructor
  · intro info halo hle
    have halo' :
        alookup (logState now m s MKind.textK).last_admin_message m.sender.id =
          some info := by
      rw [logState_last_admin]
      exact halo
    have hb' : m.sender.id ∉ (logState now m s MKind.textK).banned_users := by
      rw [logState_banned]
      exact hban
    rw [hum_text_coalesce now m.sender (get_user_settings_upd s m.sender.id).1.anon t
      (logState now m s MKind.textK) info halo' hle hb']
    refine ⟨?_, ?_, rfl⟩
    · dsimp only
      rw [logState_last_admin]
    · dsimp only
      rw [logState_targets]
  · intro hfar
    have hfar' : ∀ info,
        alookup (logState now m s MKind.textK).last_admin_message m.sender.id =
          some info → 60 < now - info.time := by
      rw [logState_last_admin]
      exact hfar
    rw [hum_text_to_new now m.sender (get_user_settings_upd s m.sender.id).1.anon t
      (logState now m s MKind.textK) hfar', hum_text_new_eq]
    refine ⟨?_, ?_, rfl⟩
    · dsimp only
      rw [logState_targets, logState_next]
    · dsimp only
      rw [logState_last_admin, logState_next]

/-- Witness for C1: user 7 has a one-minute-old text notification (sent at
time 0); a follow-up text at time 30 is coalesced into it by an edit. -/
theorem text_coalescing_witness :
    (handle_user_message 30 (wText "World") wCoalState).1.last_admin_message =
      aset wCoalState.last_admin_message 7
        ⟨ADMIN_CHAT_ID, 3, "old" ++ coalesce_addendum "World", 30, false, false⟩ ∧
    (handle_user_message 30 (wText "World") wCoalState).1.message_targets =
      wCoalState.message_targets ∧
    (handle_user_message 30 (wText "World") wCoalState).2 =
      [Action.answerUser 7 (build_thanks_text Lang.ru) none,
       Action.editTextA ADMIN_CHAT_ID 3 ("old" ++ coalesce_addendum "World")
         (some (Kb.banK 7))] :=
  (text_coalescing 30 (wText "World") wCoalState "World" rfl (by decide) rfl
      (by decide)).1
    ⟨ADMIN_CHAT_ID, 3, "old", 0, false, false⟩ (by decide) (by decide)

/-- Claim C6: an inbound photo or video that is not a non-first item of an
already-acknowledged batch always produces a fresh relayed notification
with caption and moderation controls — no edit of any prior notification,
whatever the sender's LastRelay record says — and then overwrites the
sender's LastRelay record with the non-text-media flag set, recording a
fresh reply binding. -/
theorem media_never_coalesces (now : Nat) (m : Msg) (s : BotState)
    (hmedia : mediaContent m.content)
    (hfirst : m.mediaGroupId = none ∨
      ∃ g, m.mediaGroupId = some g ∧ g ∉ s.handled_media_groups)
    (hban : m.sender.id ∉ s.banned_users) :
    (handle_user_message now m s).2.countP isEditAct = 0 ∧
    (handle_user_message now m s).2.countP isAdminSendWithControls = 1 ∧
    (handle_user_message now m s).1.message_targets =
      aset s.message_targets (ADMIN_CHAT_ID, s.nextMsgId) m.sender.id ∧
    (∃ body, (handle_user_message now m s).1.last_admin_message =
      aset s.last_admin_message m.sender.id
        ⟨ADMIN_CHAT_ID, s.nextMsgId, body, now, true,
         (get_user_settings_upd s m.sender.id).1.anon⟩) := by
  rcases hmedia with ⟨f, cp, hc⟩ | ⟨f, cp, hc⟩
  · rcases hfirst with hmg | ⟨g, hmg, hg⟩
    · simp only [hum_photo_none_reduce now m s f cp hc hmg hban]
      rw [hum_photo_full_eq now m.sender
        (get_user_settings_upd s m.sender.id).1.anon f cp none false
        (logState now m s MKind.photoK) (by simp)]
      refine ⟨?_, ?_, ?_, ?_⟩
      · simp [List.countP_cons, List.countP_nil, isEditAct]
      · simp [List.countP_cons, List.countP_nil, isAdminSendWithControls]
      · dsimp only
        rw [logState_targets, logState_next]
      · exact ⟨_, by dsimp only; rw [logState_last_admin, logState_next]⟩
    · simp only [hum_photo_first_reduce now m s f cp g hc hmg hg hban]
      rw [hum_photo_full_eq now m.sender
        (get_user_settings_upd s m.sender.id).1.anon f cp (some g) true
        (batchState now m s g MKind.photoK) (by simp)]
      refine ⟨?_, ?_, ?_, ?_⟩
      · simp [List.countP_cons, List.countP_nil, isEditAct]
      · simp [List.countP_cons, List.countP_nil, isAdminSendWithControls]
      · dsimp only
        rw [batchState_targets, batchState_next]
      · exact ⟨_, by dsimp only; rw [batchState_last_admin, batchState_next]⟩
  · rcases hfirst with hmg | ⟨g, hmg, hg⟩
    · simp only [hum_video_none_reduce now m s f cp hc hmg hban]
      rw [hum_video_full_eq now m.sender
        (get_user_settings_upd s m.sender.id).1.anon f cp none false
        (logState now m s MKind.videoK) (by simp)]
      refine ⟨?_, ?_, ?_, ?_⟩
      · simp [List.countP_cons, List.countP_nil, isEditAct]
      · simp [List.countP_cons, List.countP_nil, isAdminSendWithControls]
      · dsimp only
        rw [logState_targets, logState_next]
      · exact ⟨_, by dsimp only; rw [logState_last_admin, logState_next]⟩
    · simp only [hum_video_first_reduce now m s f cp g hc hmg hg hban]
      rw [hum_video_full_eq now m.sender
        (get_user_settings_upd s m.sender.id).1.anon f cp (some g) true
        (batchState now m s g MKind.videoK) (by simp)]
      refine ⟨?_, ?_, ?_, ?_⟩
      · simp [List.countP_cons, List.countP_nil, isEditAct]
      · simp [List.countP_cons, List.countP_nil, isAdminSendWithControls]
      · dsimp only
        rw [batchState_targets, batchState_next]
      · exact ⟨_, by dsimp only; rw [batchState_last_admin, batchState_next]⟩

/- Evaluation lemmas for the action-classification predicates. -/

theorem isAckAct_thanks (u : Int) (lang : Lang) :
    isAckAct u (Action.answerUser u (build_thanks_text lang) none) = true := by
  cases lang <;> simp [isAckAct]

theorem isAckAct_sendPhoto (u ch : Int) (f : String) (c : Option String)
    (kb : Option Kb) : isAckAct u (Action.sendPhotoA ch f c kb) = false := rfl

theorem isAckAct_sendVideo (u ch : Int) (f : String) (c : Option String)
    (kb : Option Kb) : isAckAct u (Action.sendVideoA ch f c kb) = false := rfl

theorem isCtl_answer (u : Int) (t : String) (kb : Option Kb) :
    isAdminSendWithControls (Action.answerUser u t kb) = false := rfl

theorem isCtl_sendPhoto_some (f : String) (c : Option String) (kb : Kb) :
    isAdminSendWithControls (Action.sendPhotoA ADMIN_CHAT_ID f c (some kb)) = true := by
  simp [isAdminSendWithControls]

theorem isCtl_sendVideo_some (f : String) (c : Option String) (kb : Kb) :
    isAdminSendWithControls (Action.sendVideoA ADMIN_CHAT_ID f c (some kb)) = true := by
  simp [isAdminSendWithControls]

theorem isCtl_sendPhoto_none (ch : Int) (f : String) (c : Option String) :
    isAdminSendWithControls (Action.sendPhotoA ch f c none) = false := rfl

theorem isCtl_sendVideo_none (ch : Int) (f : String) (c : Option String) :
    isAdminSendWithControls (Action.sendVideoA ch f c none) = false := rfl

theorem isBare_answer (u : Int) (t : String) (kb : Option Kb) :
    isBareMediaSend (Action.answerUser u t kb) = false := rfl

theorem isBare_sendPhoto_some (ch : Int) (f : String) (c : Option String) (kb : Kb) :
    isBareMediaSend (Action.sendPhotoA ch f c (some kb)) = false := rfl

theorem isBare_sendVideo_some (ch : Int) (f : String) (c : Option String) (kb : Kb) :
    isBareMediaSend (Action.sendVideoA ch f c (some kb)) = false := rfl

theorem isBare_sendPhoto_none (f : String) (c : Option String) :
    isBareMediaSend (Action.sendPhotoA ADMIN_CHAT_ID f c none) = true := by
  simp [isBareMediaSend]

theorem isBare_sendVideo_none (f : String) (c : Option String) :
    isBareMediaSend (Action.sendVideoA ADMIN_CHAT_ID f c none) = true := by
  simp [isBareMediaSend]

/- Batch relay lemmas. -/

theorem hum_batch_first (t0 : Nat) (m : Msg) (s : BotState) (u : Int) (g : String)
    (hm : msgInBatch u g m) (hg : g ∉ s.handled_media_groups)
    (hb : u ∉ s.banned_users) :
    (handle_user_message t0 m s).1.message_targets =
      aset s.message_targets (ADMIN_CHAT_ID, s.nextMsgId) u ∧
    (handle_user_message t0 m s).1.user_message_log.length =
      s.user_message_log.length + 1 ∧
    (handle_user_message t0 m s).1.handled_media_groups =
      sinsert g s.handled_media_groups ∧
    (handle_user_message t0 m s).1.banned_users = s.banned_users ∧
    (handle_user_message t0 m s).2.countP (isAckAct u) = 1 ∧
    (handle_user_message t0 m s).2.countP isAdminSendWithControls = 1 ∧
    (handle_user_message t0 m s).2.countP isBareMediaSend = 0 := by
  obtain ⟨hid, hmg, hmedia⟩ := hm
  subst hid
  rcases hmedia with ⟨f, cp, hc⟩ | ⟨f, cp, hc⟩
  · simp only [hum_photo_first_reduce t0 m s f cp g hc hmg hg hb]
    rw [hum_photo_full_eq t0 m.sender (get_user_settings_upd s m.sender.id).1.anon
      f cp (some g) true (batchState t0 m s g MKind.photoK) (by simp)]
    refine ⟨?_, ?_, ?_, ?_, ?_, ?_, ?_⟩
    · dsimp only
      rw [batchState_targets, batchState_next]
    · dsimp only
      rw [batchState_log]
      simp
    · dsimp only
      rw [batchState_handled]
    · dsimp only
      rw [batchState_banned]
    · simp [List.countP_cons, List.countP_nil, isAckAct_thanks, isAckAct_sendPhoto]
    · simp [List.countP_cons, List.countP_nil, isCtl_answer, isCtl_sendPhoto_some]
    · simp [List.countP_cons, List.countP_nil, isBare_answer, isBare_sendPhoto_some]
  · simp only [hum_video_first_reduce t0 m s f cp g hc hmg hg hb]
    rw [hum_video_full_eq t0 m.sender (get_user_settings_upd s m.sender.id).1.anon
      f cp (some g) true (batchState t0 m s g MKind.videoK) (by simp)]
    refine ⟨?_, ?_, ?_, ?_, ?_, ?_, ?_⟩
    · dsimp only
      rw [batchState_targets, batchState_next]
    · dsimp only
      rw [batchState_log]
      simp
    · dsimp only
      rw [batchState_handled]
    · dsimp only
      rw [batchState_banned]
    · simp [List.countP_cons, List.countP_nil, isAckAct_thanks, isAckAct_sendVideo]
    · simp [List.countP_cons, List.countP_nil, isCtl_answer, isCtl_sendVideo_some]
    · simp [List.countP_cons, List.countP_nil, isBare_answer, isBare_sendVideo_some]

theorem hum_batch_next (t0 : Nat) (m : Msg) (s : BotState) (u : Int) (g : String)
    (hm : msgInBatch u g m) (hg : g ∈ s.handled_media_groups)
    (hb : u ∉ s.banned_users) :
    (handle_user_message t0 m s).1.message_targets = s.message_targets ∧
    (handle_user_message t0 m s).1.user_message_log = s.user_message_log ∧
    (handle_user_message t0 m s).1.handled_media_groups = s.handled_media_groups ∧
    (handle_user_message t0 m s).1.banned_users = s.banned_users ∧
    (handle_user_message t0 m s).2.countP (isAckAct u) = 0 ∧
    (handle_user_message t0 m s).2.countP isAdminSendWithControls = 0 ∧
    (handle_user_message t0 m s).2.countP isBareMediaSend = 1 := by
  obtain ⟨hid, hmg, hmedia⟩ := hm
  subst hid
  rcases hmedia with ⟨f, cp, hc⟩ | ⟨f, cp, hc⟩
  · rw [hum_photo_next_reduce t0 m s f cp g hc hmg hg hb]
    rw [hum_photo_bare_eq t0 m.sender (get_user_settings_upd s m.sender.id).1.anon
      f cp (some g) false (get_user_settings_upd s m.sender.id).2 ⟨rfl, rfl⟩]
    refine ⟨?_, ?_, ?_, ?_, ?_, ?_, ?_⟩
    · dsimp only
      rw [gus_targets]
    · dsimp only
      rw [gus_log]
    · dsimp only
      rw [gus_handled]
    · dsimp only
      rw [gus_banned]
    · simp [List.countP_cons, List.countP_nil, isAckAct_sendPhoto]
    · simp [List.countP_cons, List.countP_nil, isCtl_sendPhoto_none]
    · simp [List.countP_cons, List.countP_nil, isBare_sendPhoto_none]
  · rw [hum_video_next_reduce t0 m s f cp g hc hmg hg hb]
    rw [hum_video_bare_eq t0 m.sender (get_user_settings_upd s m.sender.id).1.anon
      f cp (some g) false (get_user_settings_upd s m.sender.id).2 ⟨rfl, rfl⟩]
    refine ⟨?_, ?_, ?_, ?_, ?_, ?_, ?_⟩
    · dsimp only
      rw [gus_targets]
    · dsimp only
      rw [gus_log]
    · dsimp only
      rw [gus_handled]
    · dsimp only
      rw [gus_banned]
    · simp [List.countP_cons, List.countP_nil, isAckAct_sendVideo]
    · simp [List.countP_cons, List.countP_nil, isCtl_sendVideo_none]
    · simp [List.countP_cons, List.countP_nil, isBare_sendVideo_none]

theorem runMsgs_bare (tms : List (Nat × Msg)) (s : BotState) (u : Int) (g : String)
    (hall : ∀ p ∈ tms, msgInBatch u g p.2)
    (hg : g ∈ s.handled_media_groups) (hb : u ∉ s.banned_users) :
    (runMsgs tms s).1.message_targets = s.message_targets ∧
    (runMsgs tms s).1.user_message_log = s.user_message_log ∧
    (runMsgs tms s).2.countP (isAckAct u) = 0 ∧
    (runMsgs tms s).2.countP isAdminSendWithControls = 0 ∧
    (runMsgs tms s).2.countP isBareMediaSend = tms.length := by
  induction tms generalizing s with
  | nil => simp [runMsgs]
  | cons p rest ih =>
    obtain ⟨t0, mm⟩ := p
    obtain ⟨b1, b2, b3, b4, b5, b6, b7⟩ :=
      hum_batch_next t0 mm s u g (hall _ (List.mem_cons_self _ _)) hg hb
    obtain ⟨i1, i2, i3, i4, i5⟩ := ih (handle_user_message t0 mm s).1
      (fun p hp => hall p (List.mem_cons_of_mem _ hp))
      (by rw [b3]; exact hg) (by rw [b4]; exact hb)
    unfold runMsgs
    dsimp only
    refine ⟨i1.trans b1, i2.trans b2, ?_, ?_, ?_⟩
    · rw [List.countP_append, b5, i3]
    · rw [List.countP_append, b6, i4]
    · rw [List.countP_append, b7, i5]
      simp [Nat.add_comm]

/-- Claim C3: routing a whole batch (one photo/video group sharing a fresh
media-group id, n ≥ 1 items) produces exactly one user acknowledgement,
exactly one appended statistics event, exactly one admin notification with
moderation controls, and exactly one new reply binding; every remaining
item is relayed as a bare keyboard-free media attachment. -/
theorem batch_collapsing (t0 : Nat) (m0 : Msg) (rest : List (Nat × Msg))
    (s : BotState) (u : Int) (g : String)
    (h0 : msgInBatch u g m0) (hrest : ∀ p ∈ rest, msgInBatch u g p.2)
    (hg : g ∉ s.handled_media_groups) (hb : u ∉ s.banned_users) :
    (runMsgs ((t0, m0) :: rest) s).2.countP (isAckAct u) = 1 ∧
    (runMsgs ((t0, m0) :: rest) s).1.user_message_log.length =
      s.user_message_log.length + 1 ∧
    (runMsgs ((t0, m0) :: rest) s).2.countP isAdminSendWithControls = 1 ∧
    (runMsgs ((t0, m0) :: rest) s).2.countP isBareMediaSend = rest.length ∧
    (runMsgs ((t0, m0) :: rest) s).1.message_targets =
      aset s.message_targets (ADMIN_CHAT_ID, s.nextMsgId) u := by
  obtain ⟨f1, f2, f3, f4, f5, f6, f7⟩ := hum_batch_first t0 m0 s u g h0 hg hb
  obtain ⟨r1, r2, r3, r4, r5⟩ :=
    runMsgs_bare rest (handle_user_message t0 m0 s).1 u g hrest
      (by rw [f3]; exact self_mem_sinsert ..) (by rw [f4]; exact hb)
  unfold runMsgs
  dsimp only
  refine ⟨?_, ?_, ?_, ?_, ?_⟩
  · rw [List.countP_append, f5, r3]
  · rw [r2]
    exact f2
  · rw [List.countP_append, f6, r4]
  · rw [List.countP_append, f7, r5]
    exact Nat.zero_add _
  · rw [r1]
    exact f1

/-- Witness for C3 at a concrete two-photo album from user 7. -/
theorem batch_collapsing_witness :
    (runMsgs [(0, wPhoto (some "g1")), (1, wPhoto (some "g1"))]
        initialState).2.countP (isAckAct 7) = 1 ∧
    (runMsgs [(0, wPhoto (some "g1")), (1, wPhoto (some "g1"))]
        initialState).1.user_message_log.length =
      initialState.user_message_log.length + 1 ∧
    (runMsgs [(0, wPhoto (some "g1")), (1, wPhoto (some "g1"))]
        initialState).2.countP isAdminSendWithControls = 1 ∧
    (runMsgs [(0, wPhoto (some "g1")), (1, wPhoto (some "g1"))]
        initialState).2.countP isBareMediaSend = [(1, wPhoto (some "g1"))].length ∧
    (runMsgs [(0, wPhoto (some "g1")), (1, wPhoto (some "g1"))]
        initialState).1.message_targets =
      aset initialState.message_targets (ADMIN_CHAT_ID, initialState.nextMsgId) 7 :=
  batch_collapsing 0 (wPhoto (some "g1")) [(1, wPhoto (some "g1"))] initialState 7
    "g1" ⟨rfl, rfl, Or.inl ⟨"f1", none, rfl⟩⟩
    (fun p hp => by
      rw [List.mem_singleton] at hp
      subst hp
      exact ⟨rfl, rfl, Or.inl ⟨"f1", none, rfl⟩⟩)
    (by decide) (by decide)

/-- Witness for C6: a photo from user 7 arriving 30 seconds after a prior
text notification (well inside the coalescing window) still creates a fresh
notification and binding. -/
theorem media_never_coalesces_witness :
    (handle_user_message 30 (wPhoto none) wCoalState).2.countP isEditAct = 0 ∧
    (handle_user_message 30 (wPhoto none) wCoalState).2.countP
      isAdminSendWithControls = 1 ∧
    (handle_user_message 30 (wPhoto none) wCoalState).1.message_targets =
      aset wCoalState.message_targets (ADMIN_CHAT_ID, wCoalState.nextMsgId) 7 ∧
    (∃ body, (handle_user_message 30 (wPhoto none) wCoalState).1.last_admin_message =
      aset wCoalState.last_admin_message 7
        ⟨ADMIN_CHAT_ID, wCoalState.nextMsgId, body, 30, true,
         (get_user_settings_upd wCoalState 7).1.anon⟩) :=
  media_never_coalesces 30 (wPhoto none) wCoalState
    (Or.inl ⟨"f1", none, rfl⟩) (Or.inl rfl) (by decide)

end TgRelay

